import Mathlib

/-!
Verification of the vehicle telemetry/command dispatch core of the
forkQGroundControl repository against its natural-language specification.

The development shallowly embeds the relevant C++ code:

* `UAS.cc` (the per-vehicle state machine `UAS::receiveMessage`, the
  time-reconciliation helpers `UAS::getUnixTime` / `UAS::getUnixReferenceTime`,
  the voltage filter `UAS::filterVoltage`, the low-battery alarm latch and
  `UAS::setMode`);
* `QGCApplication.cc` (the MQTT command/response bridge `updateMessage`,
  its helper command functions, and the battery averaging loop of
  `sendAircraftPositionInfos`).

Conventions:
* C/C++ floating point values (`float`, `double`) are modelled as exact
  rationals (`ℚ`); the specification states all numeric laws in exact
  arithmetic.
* `quint64` arithmetic is modelled on `Nat` with explicit reduction
  modulo `2 ^ 64` where wrap-around matters.
* Qt signal emissions and audio-output side effects are modelled as an
  explicit event trace (`List Event`).
* Null-pointer dereference (undefined behaviour) is modelled as `Option`
  failure (`none`).
-/

namespace QGC

/-! ## External MAVLink enum constants

The MAVLink headers are an external library and are not part of this
repository's sources.  The numeric values below are placeholders for the
external enumerators; every theorem in this file is independent of the
concrete numbers and refers to the enumerators only by name. -/

def MAV_STATE_UNINIT : Int := 0
def MAV_STATE_BOOT : Int := 1
def MAV_STATE_CALIBRATING : Int := 2
def MAV_STATE_STANDBY : Int := 3
def MAV_STATE_ACTIVE : Int := 4
def MAV_STATE_CRITICAL : Int := 5
def MAV_STATE_EMERGENCY : Int := 6
def MAV_STATE_POWEROFF : Int := 7

def MAV_MODE_PREFLIGHT : Int := 0
def MAV_MODE_MANUAL : Int := 1
def MAV_MODE_STABILIZE : Int := 2
def MAV_MODE_GUIDED : Int := 3
def MAV_MODE_AUTO : Int := 4
def MAV_MODE_TEST : Int := 5
def MAV_MODE_ENUM_END : Int := 6

def MAV_TYPE_FIXED_WING : Int := 1
def MAV_TYPE_QUADROTOR : Int := 2

def QGC_AIRFRAME_EASYSTAR : Int := 1
def QGC_AIRFRAME_CHEETAH : Int := 2

def MAV_FLIGHT_MODE_PREFLIGHT : Int := 0
def MAV_FLIGHT_MODE_MANUAL : Int := 1
def MAV_FLIGHT_MODE_AUTO_TAKEOFF : Int := 2
def MAV_FLIGHT_MODE_AUTO_HOLD : Int := 3
def MAV_FLIGHT_MODE_AUTO_MISSION : Int := 4
def MAV_FLIGHT_MODE_AUTO_VECTOR : Int := 5
def MAV_FLIGHT_MODE_AUTO_RETURNING : Int := 6
def MAV_FLIGHT_MODE_AUTO_LANDING : Int := 7
def MAV_FLIGHT_MODE_AUTO_LOST : Int := 8
def MAV_FLIGHT_MODE_STABILIZE_RATES_ACRO : Int := 9
def MAV_FLIGHT_MODE_STABILIZE_LEVELING : Int := 10
def MAV_FLIGHT_MODE_STABILIZE_ROLL_PITCH_ABSOLUTE : Int := 11
def MAV_FLIGHT_MODE_STABILIZE_ROLL_YAW_ALTITUDE : Int := 12
def MAV_FLIGHT_MODE_STABILIZE_ROLL_PITCH_YAW_ALTITUDE : Int := 13
def MAV_FLIGHT_MODE_STABILIZE_CURSOR_CONTROL : Int := 14

/-- MAVLink message-type identifier of ATTITUDE (external catalog value;
used only in the attitude-stamped gating disjunct of `receiveMessage`). -/
def msgIdAttitude : Nat := 30

/-! ## quint64 helpers -/

/-- The modulus of `quint64` arithmetic. -/
def two64 : Nat := 2 ^ 64

/-- Unsigned 64-bit subtraction `a - b` with wrap-around, as performed by
C++ on `quint64` operands. -/
def sub64 (a b : Nat) : Nat := (a + (two64 - b % two64)) % two64

/-- Truncating conversion of a rational to `int`, as performed by a C++
`static_cast<int>` on a floating value (rounding toward zero). -/
def ratTrunc (q : ℚ) : Int := Int.tdiv q.num (q.den : Int)

/-! ## Voltage filter (`UAS::filterVoltage`)

`float UAS::filterVoltage(float value) const
   { return lpVoltage * 0.7f + value * 0.3f; }` -/

/-- Embedding of `UAS::filterVoltage`: the member `lpVoltage` is passed
explicitly as the first argument. -/
def filterVoltage (lpVoltage value : ℚ) : ℚ :=
  lpVoltage * (7 / 10) + value * (3 / 10)

/-- Iterating the filter on a constant input sample `v`, starting from the
filtered value `f0`. -/
def filterIter (f0 v : ℚ) : Nat → ℚ
  | 0 => f0
  | n + 1 => filterVoltage (filterIter f0 v n) v

/-! ## Vehicle state (`UAS`) -/

/-- A transport link (`LinkInterface*`).  Links are compared by identity,
modelled by structural equality of this record.  `connected` is the result
of `LinkInterface::isConnected()`. -/
structure Link where
  id : Nat
  connected : Bool
deriving DecidableEq

/-- Ambient ground-side clock readings used by the handlers
(`QGC::groundTimeUsecs`, `QGC::groundTimeMilliseconds` /
`MG::TIME::getGroundTimeNow`). -/
structure Env where
  groundTimeUsecs : Nat
  groundTimeMs : Nat
deriving DecidableEq

/-- The fields of class `UAS` that the message-dispatch core reads or
writes (from the constructor initializer list of `UAS::UAS` and the
handler bodies in `UAS.cc`). -/
structure UAS where
  uasId : Int
  name : String
  links : List Link
  uasType : Int
  airframe : Int
  autopilot : Int
  status : Int
  mode : Int
  navMode : Int
  lastHeartbeat : Nat
  shortStateText : String
  shortModeText : String
  startVoltage : ℚ
  currentVoltage : ℚ
  lpVoltage : ℚ
  warnVoltage : ℚ
  emptyVoltage : ℚ
  fullVoltage : ℚ
  warnLevelPercent : ℚ
  chargeLevel : ℚ
  batteryRemainingEstimateEnabled : Bool
  timeRemaining : Int
  lowBattAlarm : Bool
  latitude : ℚ
  longitude : ℚ
  altitude : ℚ
  speedX : ℚ
  speedY : ℚ
  speedZ : ℚ
  positionLock : Bool
  unknownPackets : List Nat
  onboardTimeOffset : Nat
  attitudeStamped : Bool
  lastAttitude : Nat
  startTime : Nat
deriving DecidableEq

/-- Static constants `UAS::lipoFull` / `UAS::lipoEmpty`.
Modelled from the spec: the constants are declared in the `UAS` header,
which is not among the provided sources; the spec only says full/empty
voltage thresholds are derived from battery chemistry and cell count.
No theorem depends on the concrete values. -/
def lipoFull : ℚ := 21 / 5

/-- Static constant `UAS::lipoEmpty`; see `lipoFull`. -/
def lipoEmpty : ℚ := 7 / 2

/-- Embedding of `UAS::setBattery` restricted to the `LIPOLY` chemistry the
constructor selects (`setBattery(LIPOLY, 3)`): derives the full and empty
voltage thresholds from the cell count. -/
def setBatteryLipo (s : UAS) (cells : Nat) : UAS :=
  { s with fullVoltage := (cells : ℚ) * lipoFull,
           emptyVoltage := (cells : ℚ) * lipoEmpty }

/-- The state of a fresh `UAS` object, from the constructor initializer
list of `UAS::UAS(MAVLinkProtocol*, int)` followed by the
`setBattery(LIPOLY, 3)` call in the constructor body.  `startTime` is the
ground time at construction.  Fields that the initializer list leaves
uninitialized (`uasType`, `lastHeartbeat`, `chargeLevel`, `timeRemaining`,
`shortStateText`, `shortModeText`, the speeds) are set to zero / empty; no
claim depends on their pre-first-message values.  The `readSettings()`
call is modelled as finding no stored settings. -/
def uasInit (id : Int) (startTime : Nat) : UAS :=
  setBatteryLipo
    { uasId := id
      name := ""
      links := []
      uasType := 0
      airframe := 0
      autopilot := -1
      status := -1
      mode := -1
      navMode := -1
      lastHeartbeat := 0
      shortStateText := ""
      shortModeText := ""
      startVoltage := 0
      currentVoltage := 12
      lpVoltage := 12
      warnVoltage := 19 / 2
      emptyVoltage := 0
      fullVoltage := 0
      warnLevelPercent := 20
      chargeLevel := 0
      batteryRemainingEstimateEnabled := false
      timeRemaining := 0
      lowBattAlarm := false
      latitude := 0
      longitude := 0
      altitude := 0
      speedX := 0
      speedY := 0
      speedZ := 0
      positionLock := false
      unknownPackets := []
      onboardTimeOffset := 0
      attitudeStamped := false
      lastAttitude := 0
      startTime := startTime } 3

/-! ## Time reconciliation (`UAS::getUnixTime`, `UAS::getUnixReferenceTime`) -/

/-- The literal threshold `1261440000000000` ("40 years in microseconds")
from `UAS::getUnixTime`. -/
def fortyYearsUs : Nat := 1261440000000000

/-- Embedding of `quint64 UAS::getUnixTime(quint64 time)`.  `groundMs` is
the value `QGC::groundTimeMilliseconds()` would return during the call.
Returns the resolved timestamp together with the updated object state
(the function writes the member `onboardTimeOffset` on first calibration). -/
def getUnixTime (s : UAS) (groundMs : Nat) (time : Nat) : Nat × UAS :=
  if s.attitudeStamped then (s.lastAttitude, s)
  else if time = 0 then (groundMs % two64, s)
  else if time < fortyYearsUs then
    if s.onboardTimeOffset = 0 then
      let off := sub64 groundMs (time / 1000)
      ((time / 1000 + off) % two64, { s with onboardTimeOffset := off })
    else
      ((time / 1000 + s.onboardTimeOffset) % two64, s)
  else
    (time / 1000, s)

/-- Embedding of `quint64 UAS::getUnixReferenceTime(quint64 time)`: same
as `getUnixTime` but without the attitude-stamped short-circuit. -/
def getUnixReferenceTime (s : UAS) (groundMs : Nat) (time : Nat) : Nat × UAS :=
  if time = 0 then (groundMs % two64, s)
  else if time < fortyYearsUs then
    if s.onboardTimeOffset = 0 then
      let off := sub64 groundMs (time / 1000)
      ((time / 1000 + off) % two64, { s with onboardTimeOffset := off })
    else
      ((time / 1000 + s.onboardTimeOffset) % two64, s)
  else
    (time / 1000, s)

/-- Runs `getUnixTime` on a sequence of calls; each call supplies the
current ground milliseconds reading and the raw onboard timestamp. -/
def runClock (s : UAS) : List (Nat × Nat) → List Nat × UAS
  | [] => ([], s)
  | c :: rest =>
    let r := getUnixTime s c.1 c.2
    let rs := runClock r.2 rest
    (r.1 :: rs.1, rs.2)

/-! ## Event trace

One constructor per Qt signal emission site / audio-output call reachable
from the modelled handlers of `UAS::receiveMessage`.  The two C++ signal
overloads `statusChanged(UASInterface*, QString, QString)` and
`statusChanged(int)` are distinct signals and get distinct constructors,
likewise `systemRemoved(UASInterface*)` and `systemRemoved()`. -/

inductive Event where
  | heartbeatReceived
  | systemTypeSet (t : Int)
  | statusChangedText (uasState stateDescription : String)
  | statusChangedCode (status : Int)
  | modeChanged (id : Int) (shortMode extra : String)
  | navModeChanged (id : Int) (m : Int) (text : String)
  | systemRemovedWith
  | systemRemovedPlain
  | loadChanged (v : ℚ)
  | valueChanged (id : Int) (name unit : String) (v : ℚ) (time : Nat)
  | batteryChanged (volt chg : ℚ) (timeRem : Int)
  | voltageChanged (sysid : Nat) (pct : ℚ)
  | dropRateChanged (id : Int) (r : ℚ)
  | globalPositionChanged (lat lon alt : ℚ) (time : Nat)
  | speedChanged (vx vy vz : ℚ) (time : Nat)
  | textMessageReceived (id : Int) (compid severity : Nat) (text : String)
  | audioSay (s : String)
  | audioAlert (s : String)
  | audioStartEmergency
  | audioStopEmergency
  | audioNotifyPositive
  | timerStartEmergencyShot (ms : Nat)
  | messageForwarded
deriving DecidableEq

/-- Recognizer for the `statusChanged(UASInterface*, QString, QString)`
emission. -/
def Event.isStatusChangedText : Event → Bool
  | .statusChangedText _ _ => true
  | _ => false

/-- Recognizer for the `statusChanged(int)` emission. -/
def Event.isStatusChangedCode : Event → Bool
  | .statusChangedCode _ => true
  | _ => false

/-- Recognizer for the `modeChanged` emission. -/
def Event.isModeChanged : Event → Bool
  | .modeChanged _ _ _ => true
  | _ => false

/-- Recognizer for the low-battery `GAudioOutput::alert` call. -/
def Event.isAudioAlert : Event → Bool
  | .audioAlert _ => true
  | _ => false

/-- Recognizer for the `textMessageReceived` emission. -/
def Event.isTextMessage : Event → Bool
  | .textMessageReceived _ _ _ _ => true
  | _ => false

/-- Recognizer for the `globalPositionChanged` emission. -/
def Event.isGlobalPosition : Event → Bool
  | .globalPositionChanged _ _ _ _ => true
  | _ => false

/-! ## Decoded inbound messages

`mavlink_message_t` carries `sysid`, `compid` and `msgid`; the typed
payloads below correspond to the `mavlink_msg_*_decode` structs of the
handlers modelled here.  `unknown id` stands for a decoded message whose
`msgid` reaches the `default:` branch of the dispatch switch. -/

inductive Payload where
  | heartbeat (mtype autopilot systemStatus systemMode flightMode : Nat)
  | sysStatus (load voltageBattery batteryPercent errorsUart : Nat)
  | globalPositionInt (lat lon alt vx vy vz : Int)
  | localPositionSetpointSet
  | unknown (id : Nat)
deriving DecidableEq

/-- Message-type identifiers of the modelled handled cases (external
MAVLink catalog values; placeholders, see the enum section note). -/
def msgIdHeartbeat : Nat := 0

/-- Message-type identifier of SYS_STATUS (external catalog value). -/
def msgIdSysStatus : Nat := 34

/-- Message-type identifier of GLOBAL_POSITION_INT (external catalog
value). -/
def msgIdGlobalPositionInt : Nat := 33

/-- Message-type identifier of LOCAL_POSITION_SETPOINT_SET (external
catalog value). -/
def msgIdLocalPositionSetpointSet : Nat := 50

/-- The `msgid` field carried by a decoded message. -/
def Payload.msgid : Payload → Nat
  | .heartbeat _ _ _ _ _ => msgIdHeartbeat
  | .sysStatus _ _ _ _ => msgIdSysStatus
  | .globalPositionInt _ _ _ _ _ _ => msgIdGlobalPositionInt
  | .localPositionSetpointSet => msgIdLocalPositionSetpointSet
  | .unknown id => id

/-- A decoded `mavlink_message_t` as delivered to `UAS::receiveMessage`. -/
structure MavMessage where
  sysid : Nat
  compid : Nat
  payload : Payload
deriving DecidableEq

/-! ## Text helpers of `UAS` -/

/-- Embedding of `QString UAS::getUASName(void) const`.  The
`sprintf("%03d", id)` zero-pads the id to three digits. -/
def uasName (s : UAS) : String :=
  if s.name = "" then
    "MAV " ++
      (if s.uasId < 0 then toString s.uasId
       else if s.uasId < 10 then "00" ++ toString s.uasId
       else if s.uasId < 100 then "0" ++ toString s.uasId
       else toString s.uasId)
  else s.name

/-- Embedding of `UAS::getStatusForCode`: returns the pair
`(uasState, stateDescription)`. -/
def getStatusForCode (statusCode : Int) : String × String :=
  if statusCode = MAV_STATE_UNINIT then ("UNINIT", "Unitialized, booting up.")
  else if statusCode = MAV_STATE_BOOT then ("BOOT", "Booting system, please wait.")
  else if statusCode = MAV_STATE_CALIBRATING then ("CALIBRATING", "Calibrating sensors, please wait.")
  else if statusCode = MAV_STATE_ACTIVE then ("ACTIVE", "Active, normal operation.")
  else if statusCode = MAV_STATE_STANDBY then ("STANDBY", "Standby mode, ready for liftoff.")
  else if statusCode = MAV_STATE_CRITICAL then ("CRITICAL", "FAILURE: Continuing operation.")
  else if statusCode = MAV_STATE_EMERGENCY then ("EMERGENCY", "EMERGENCY: Land Immediately!")
  else if statusCode = MAV_STATE_POWEROFF then ("SHUTDOWN", "Powering off system.")
  else ("UNKNOWN", "Unknown system state")

/-- Embedding of `QString UAS::getShortModeTextFor(int id)`. -/
def getShortModeTextFor (id : Int) : String :=
  if id = MAV_MODE_PREFLIGHT then "PREFLIGHT"
  else if id = MAV_MODE_MANUAL then "MANUAL"
  else if id = MAV_MODE_AUTO then "AUTO"
  else if id = MAV_MODE_GUIDED then "GUIDED"
  else if id = MAV_MODE_STABILIZE then "STABILIZED"
  else if id = MAV_MODE_TEST then "STABILIZED"
  else "UNKNOWN"

/-- Embedding of `QString UAS::getNavModeText(int mode)`. -/
def getNavModeText (mode : Int) : String :=
  if mode = MAV_FLIGHT_MODE_PREFLIGHT then "PREFLIGHT"
  else if mode = MAV_FLIGHT_MODE_MANUAL then "MANUAL"
  else if mode = MAV_FLIGHT_MODE_AUTO_TAKEOFF then "TAKEOFF"
  else if mode = MAV_FLIGHT_MODE_AUTO_HOLD then "HOLDING"
  else if mode = MAV_FLIGHT_MODE_AUTO_MISSION then "MISSION"
  else if mode = MAV_FLIGHT_MODE_AUTO_VECTOR then "VECTOR"
  else if mode = MAV_FLIGHT_MODE_AUTO_RETURNING then "RETURNING"
  else if mode = MAV_FLIGHT_MODE_AUTO_LANDING then "LANDING"
  else if mode = MAV_FLIGHT_MODE_AUTO_LOST then "LOST"
  else if mode = MAV_FLIGHT_MODE_STABILIZE_RATES_ACRO then "S: RATE/ACRO"
  else if mode = MAV_FLIGHT_MODE_STABILIZE_LEVELING then "S: LEVELING"
  else if mode = MAV_FLIGHT_MODE_STABILIZE_ROLL_PITCH_ABSOLUTE then "S: R/P ABS"
  else if mode = MAV_FLIGHT_MODE_STABILIZE_ROLL_YAW_ALTITUDE then "S: R/Y ALT"
  else if mode = MAV_FLIGHT_MODE_STABILIZE_ROLL_PITCH_YAW_ALTITUDE then "S: R/P/Y ALT"
  else if mode = MAV_FLIGHT_MODE_STABILIZE_CURSOR_CONTROL then "S: CURSOR"
  else "UNKNOWN"

/-- Embedding of `UAS::setAirframe`.
Modelled from the spec: the body of `setAirframe` lives in the `UAS`
header, which is not among the provided sources; the spec lists the
airframe type as a plain identity field, so the call is modelled as
setting that field (any change notification it may additionally emit is
not modelled; no claim depends on it). -/
def setAirframe (s : UAS) (a : Int) : UAS :=
  { s with airframe := a }

/-! ## Battery helpers of `UAS` -/

/-- Embedding of `int UAS::calculateTimeRemaining()`.  C++ divides doubles,
so `seconds == 0` yields an IEEE infinity and a final result of `0`; the
rational embedding divides by zero to `0` directly, producing the same
`0` result in that case. -/
def calculateTimeRemaining (env : Env) (s : UAS) : Int :=
  let dt : Nat := sub64 env.groundTimeMs s.startTime
  let seconds : ℚ := (dt : ℚ) / 1000
  let voltDifference : ℚ := s.startVoltage - s.currentVoltage
  let voltDifference := if voltDifference ≤ 0 then 1 / 100000000000 else voltDifference
  let dischargePerSecond := voltDifference / seconds
  let remaining := ratTrunc ((s.currentVoltage - s.emptyVoltage) / dischargePerSecond)
  if remaining < 0 then 0 else remaining

/-- Embedding of `float UAS::getChargeLevel()`: recomputes (and stores)
the charge level from the filtered voltage when the battery-remaining
estimate is enabled, otherwise returns the stored value. -/
def getChargeLevel (s : UAS) : ℚ × UAS :=
  if s.batteryRemainingEstimateEnabled then
    let c : ℚ :=
      if s.lpVoltage < s.emptyVoltage then 0
      else if s.fullVoltage < s.lpVoltage then 100
      else 100 * ((s.lpVoltage - s.emptyVoltage) / (s.fullVoltage - s.emptyVoltage))
    (c, { s with chargeLevel := c })
  else (s.chargeLevel, s)

/-- Embedding of `void UAS::startLowBattAlarm()`: alerts and latches only
when the alarm is not already latched. -/
def startLowBattAlarm (s : UAS) : UAS × List Event :=
  if s.lowBattAlarm then (s, [])
  else
    ({ s with lowBattAlarm := true },
     [.audioAlert ("SYSTEM " ++ uasName s ++ " HAS LOW BATTERY"),
      .timerStartEmergencyShot 2500])

/-- Embedding of `void UAS::stopLowBattAlarm()`: clears the latch only
when it is set. -/
def stopLowBattAlarm (s : UAS) : UAS × List Event :=
  if s.lowBattAlarm then ({ s with lowBattAlarm := false }, [.audioStopEmergency])
  else (s, [])

/-- The value of the default-argument call `getUnixTime()` used inside the
handlers (the `time` argument defaults to `0`; that call never writes the
offset). -/
def getUnixTimeNow (env : Env) (s : UAS) : Nat :=
  (getUnixTime s env.groundTimeMs 0).1

/-! ## The HEARTBEAT handler, block by block -/

/-- The `if (this->type != state.type)` block of the HEARTBEAT case:
records the new system type, auto-selects an airframe when none is set,
stores the autopilot type and emits `systemTypeSet`. -/
def hbTypeStep (s : UAS) (mtype autopilot : Nat) : UAS × List Event :=
  if (mtype : Int) ≠ s.uasType then
    let s := { s with uasType := (mtype : Int) }
    let s :=
      if s.airframe = 0 then
        if s.uasType = MAV_TYPE_FIXED_WING then setAirframe s QGC_AIRFRAME_EASYSTAR
        else if s.uasType = MAV_TYPE_QUADROTOR then setAirframe s QGC_AIRFRAME_CHEETAH
        else s
      else s
    let s := { s with autopilot := (autopilot : Int) }
    (s, [.systemTypeSet s.uasType])
  else (s, [])

/-- The `if (state.system_status != this->status)` block of the HEARTBEAT
case.  Returns the updated state, the two `statusChanged` emissions, the
`stateAudio` fragment and the `statechanged` flag. -/
def hbStatusStep (s : UAS) (systemStatus : Nat) : UAS × List Event × String × Bool :=
  if (systemStatus : Int) ≠ s.status then
    let st := getStatusForCode (systemStatus : Int)
    let s := { s with status := (systemStatus : Int), shortStateText := st.1 }
    (s, [.statusChangedText st.1 st.2, .statusChangedCode s.status],
     " changed status to " ++ st.1, true)
  else (s, [], "", false)

/-- The `if (this->mode != static_cast<int>(state.system_mode))` block of
the HEARTBEAT case.  Returns the updated state, the `modeChanged`
emission, the `modeAudio` fragment and the `modechanged` flag. -/
def hbModeStep (s : UAS) (systemMode : Nat) : UAS × List Event × String × Bool :=
  if (systemMode : Int) ≠ s.mode then
    let short := getShortModeTextFor (systemMode : Int)
    let s := { s with mode := (systemMode : Int), shortModeText := short }
    (s, [.modeChanged s.uasId short ""], " is now in " ++ short, true)
  else (s, [], "", false)

/-- The `if (navMode != state.flight_mode)` block of the HEARTBEAT case. -/
def hbNavStep (s : UAS) (flightMode : Nat) : UAS × List Event × String :=
  if s.navMode ≠ (flightMode : Int) then
    ({ s with navMode := (flightMode : Int) },
     [.navModeChanged s.uasId (flightMode : Int) (getNavModeText (flightMode : Int))],
     " changed nav mode to " ++ "FIXME")
  else (s, [], "")

/-- Embedding of the `MAVLINK_MSG_ID_HEARTBEAT` case of
`UAS::receiveMessage`. -/
def handleHeartbeat (env : Env) (s : UAS)
    (mtype autopilot systemStatus systemMode flightMode : Nat) : UAS × List Event :=
  let s := { s with lastHeartbeat := env.groundTimeUsecs }
  let audiostring := "System " ++ uasName s
  let r1 := hbTypeStep s mtype autopilot
  let r2 := hbStatusStep r1.1 systemStatus
  let stateAudio := r2.2.2.1
  let statechanged := r2.2.2.2
  let r3 := hbModeStep r2.1 systemMode
  let modeAudio := r3.2.2.1
  let modechanged := r3.2.2.2
  let r4 := hbNavStep r3.1 flightMode
  let navModeAudio := r4.2.2
  let audiostring :=
    if modechanged && statechanged then audiostring ++ modeAudio ++ " and " ++ stateAudio
    else if modechanged || statechanged then audiostring ++ modeAudio ++ stateAudio ++ navModeAudio
    else audiostring
  let audioEvents :=
    if (systemStatus : Int) = MAV_STATE_CRITICAL ∨ (systemStatus : Int) = MAV_STATE_EMERGENCY then
      [Event.audioStartEmergency]
    else if modechanged || statechanged then
      [Event.audioStopEmergency, Event.audioSay audiostring]
    else []
  let poweroffEvents :=
    if (systemStatus : Int) = MAV_STATE_POWEROFF then
      [Event.systemRemovedWith, Event.systemRemovedPlain]
    else []
  (r4.1,
   Event.heartbeatReceived :: (r1.2 ++ r2.2.1 ++ r3.2.1 ++ r4.2.1 ++ audioEvents ++ poweroffEvents))

/-! ## The SYS_STATUS handler -/

/-- The voltage/battery bookkeeping prefix of the SYS_STATUS case, in
statement order: `currentVoltage`, `lpVoltage` (through the filter),
first-sample `startVoltage`, `timeRemaining`, and the raw charge level
when the estimate is disabled. -/
def sysStatusBattery (env : Env) (s : UAS) (voltageBattery batteryPercent : Nat) : UAS :=
  let s1 := { s with currentVoltage := (voltageBattery : ℚ) / 1000 }
  let s2 := { s1 with lpVoltage := filterVoltage s1.lpVoltage s1.currentVoltage }
  let s3 := if s2.startVoltage = 0 then { s2 with startVoltage := s2.currentVoltage } else s2
  let s4 := { s3 with timeRemaining := calculateTimeRemaining env s3 }
  if ¬s4.batteryRemainingEstimateEnabled then
    { s4 with chargeLevel := (batteryPercent : ℚ) / (51 / 20) }
  else s4

/-- The low-battery alarm edge of the SYS_STATUS case: start the latched
alarm below the warn voltage, stop it otherwise. -/
def sysStatusAlarm (s : UAS) : UAS × List Event :=
  if s.lpVoltage < s.warnVoltage then startLowBattAlarm s else stopLowBattAlarm s

/-- Embedding of the `MAVLINK_MSG_ID_SYS_STATUS` case of
`UAS::receiveMessage` (load, battery voltage and filter, charge level,
low-battery alarm latch, drop rate). -/
def handleSysStatus (env : Env) (s : UAS)
    (sysid load voltageBattery batteryPercent errorsUart : Nat) : UAS × List Event :=
  let t0 := getUnixTimeNow env s
  let evLoad : List Event :=
    [.loadChanged ((load : ℚ) / 10),
     .valueChanged s.uasId "Load" "%" ((load : ℚ) / 10) t0]
  let sb := sysStatusBattery env s voltageBattery batteryPercent
  let rc := getChargeLevel sb
  let evBatt : List Event :=
    [.batteryChanged rc.2.lpVoltage rc.1 rc.2.timeRemaining,
     .voltageChanged sysid ((batteryPercent : ℚ) / (51 / 20))]
  let ra := sysStatusAlarm rc.2
  let evDrop : List Event := [.dropRateChanged ra.1.uasId ((errorsUart : ℚ) / 1000)]
  (ra.1, evLoad ++ evBatt ++ ra.2 ++ evDrop)

/-! ## The GLOBAL_POSITION_INT handler -/

/-- Embedding of the `MAVLINK_MSG_ID_GLOBAL_POSITION_INT` case of
`UAS::receiveMessage`.  The C++ computes `sqrt` of the squared speed sum
in `double`; `Rat.sqrt` stands in for that external floating operation
(no claim references the "gps speed" value). -/
def handleGlobalPositionInt (env : Env) (s : UAS)
    (lat lon alt vx vy vz : Int) : UAS × List Event :=
  let time := getUnixTimeNow env s
  let s := { s with
    latitude := (lat : ℚ) / 10000000
    longitude := (lon : ℚ) / 10000000
    altitude := (alt : ℚ) / 1000
    speedX := (vx : ℚ) / 100
    speedY := (vy : ℚ) / 100
    speedZ := (vz : ℚ) / 100 }
  let totalSpeed := Rat.sqrt (s.speedX * s.speedX + s.speedY * s.speedY + s.speedZ * s.speedZ)
  let evs : List Event :=
    [.valueChanged s.uasId "latitude" "deg" s.latitude time,
     .valueChanged s.uasId "longitude" "deg" s.longitude time,
     .valueChanged s.uasId "altitude" "m" s.altitude time,
     .valueChanged s.uasId "gps speed" "m/s" totalSpeed time,
     .globalPositionChanged s.latitude s.longitude s.altitude time,
     .speedChanged s.speedX s.speedY s.speedZ time]
  let lockEvents := if ¬s.positionLock then [Event.audioNotifyPositive] else []
  let s := { s with positionLock := true }
  (s, evs ++ lockEvents ++ [Event.messageForwarded])

/-! ## The default (unknown message) branch -/

/-- Embedding of the `default:` branch of the dispatch switch: records the
unknown message-type identifier (deduplicated) and raises the
"unable to decode" notifications exactly on first sight. -/
def handleUnknown (s : UAS) (compid id : Nat) : UAS × List Event :=
  if s.unknownPackets.contains id then (s, [])
  else
    let errString := "UNABLE TO DECODE MESSAGE NUMBER " ++ toString id
    ({ s with unknownPackets := s.unknownPackets ++ [id] },
     [.audioSay (errString ++ ", please check console for details."),
      .textMessageReceived s.uasId compid 255 errString])

/-! ## Message dispatch (`UAS::receiveMessage`) -/

/-- Dispatch by `msgid` (the big `switch` of `UAS::receiveMessage`),
restricted to the modelled cases; `localPositionSetpointSet` is on the
explicit "messages to ignore" list. -/
def dispatchMessage (env : Env) (s : UAS) (msg : MavMessage) : UAS × List Event :=
  match msg.payload with
  | .heartbeat t ap ss sm fm => handleHeartbeat env s t ap ss sm fm
  | .sysStatus ld vb bp eu => handleSysStatus env s msg.sysid ld vb bp eu
  | .globalPositionInt lat lon alt vx vy vz =>
    handleGlobalPositionInt env s lat lon alt vx vy vz
  | .localPositionSetpointSet => (s, [])
  | .unknown id => handleUnknown s msg.compid id

/-- The inlined `UAS::addLink` step at the top of `receiveMessage`: an
unseen link is appended to the link set, a known one leaves it unchanged. -/
def addLinkTo (s : UAS) (l : Link) : UAS :=
  if s.links.contains l then s else { s with links := s.links ++ [l] }

/-- Embedding of `void UAS::receiveMessage(LinkInterface*, mavlink_message_t)`:
a null link returns immediately; an unseen link is added to the link set;
the message is processed only when its `sysid` equals this vehicle's id and
the attitude-stamped gate passes. -/
def receiveMessage (env : Env) (s : UAS) (link : Option Link) (msg : MavMessage) :
    UAS × List Event :=
  match link with
  | none => (s, [])
  | some l =>
    let s := addLinkTo s l
    if (msg.sysid : Int) = s.uasId ∧
        (¬s.attitudeStamped ∨ (s.attitudeStamped ∧ s.lastAttitude ≠ 0) ∨
          msg.payload.msgid = msgIdAttitude) then
      dispatchMessage env s msg
    else (s, [])

/-- Processes a list of `(link, message)` deliveries in order,
accumulating the event trace. -/
def runMessages (env : Env) (s : UAS) : List (Option Link × MavMessage) → UAS × List Event
  | [] => (s, [])
  | m :: rest =>
    let r := receiveMessage env s m.1 m.2
    let rs := runMessages env r.1 rest
    (rs.1, r.2 ++ rs.2)

/-! ## Outbound commands (`UAS::setMode`) -/

/-- An encoded outbound frame, before byte serialization: the local
(ground station) identity stamped by `mavlink_msg_set_mode_pack` plus the
typed command content. -/
inductive WireMsg where
  | setModeMsg (gcsSysId gcsCompId : Nat) (targetSystem : Nat) (modeVal : Nat)
deriving DecidableEq

/-- C++ conversion of a (possibly negative) `int` to `uint8_t`. -/
def toU8 (i : Int) : Nat := (i.emod 256).toNat

/-- Embedding of `void UAS::sendMessage(mavlink_message_t)` composed with
the per-link `sendMessage(LinkInterface*, mavlink_message_t)`: the frame
is written to every currently connected link of the vehicle (byte-level
serialization is the external codec).  The null-entry cleanup branch of
the loop cannot arise in this embedding, where the link list holds no
null pointers. -/
def sendToAllLinks (s : UAS) (msg : WireMsg) : List (Nat × WireMsg) :=
  (s.links.filter (·.connected)).map (fun l => (l.id, msg))

/-- Embedding of `void UAS::setMode(int mode)` (ground-station identity
`gcsSysId`/`gcsCompId` from the `MAVLinkProtocol` object): inside the
`MAV_MODE` range it packs a SET_MODE frame and sends it to the links,
otherwise it only logs; the member `mode` is never assigned (the
assignment in the source is commented out). -/
def setMode (gcsSysId gcsCompId : Nat) (s : UAS) (mode : Int) :
    UAS × List (Nat × WireMsg) :=
  if MAV_MODE_PREFLIGHT ≤ mode ∧ mode < MAV_MODE_ENUM_END then
    (s, sendToAllLinks s (.setModeMsg gcsSysId gcsCompId (toU8 s.uasId) (toU8 mode)))
  else (s, [])

/-! ## JSON values (`QJsonValue` / `QJsonObject` / `QJsonArray`)

`QJsonObject` stores unique keys; `insert` replaces the value of an
existing key.  (Qt keeps keys sorted; this embedding keeps insertion
order, which no claim observes.) -/

inductive JVal where
  | jNull
  | jBool (b : Bool)
  | jNum (q : ℚ)
  | jStr (s : String)
  | jArr (xs : List JVal)
  | jObj (fields : List (String × JVal))

/-- A JSON object, as a key/value list with unique keys. -/
abbrev JObj := List (String × JVal)

/-- Embedding of `QJsonObject::insert`: replaces an existing key in place,
otherwise appends. -/
def jobjInsert (o : JObj) (k : String) (v : JVal) : JObj :=
  if o.any (fun p => p.1 = k) then
    o.map (fun p => if p.1 = k then (k, v) else p)
  else o ++ [(k, v)]

/-- Key lookup in a JSON object. -/
def jobjGet (o : JObj) (k : String) : Option JVal :=
  (o.find? (fun p => p.1 = k)).map (fun p => p.2)

/-- Embedding of `object[key].toString()`: the empty string when the key
is absent or not a string. -/
def jobjGetString (o : JObj) (k : String) : String :=
  match jobjGet o k with
  | some (.jStr s) => s
  | _ => ""

/-- Embedding of `object[key].toDouble()`: `0` when the key is absent or
not a number. -/
def jobjGetNum (o : JObj) (k : String) : ℚ :=
  match jobjGet o k with
  | some (.jNum q) => q
  | _ => 0

/-- Whether a JSON object contains a key. -/
def jobjHasKey (o : JObj) (k : String) : Bool :=
  o.any (fun p => p.1 = k)

/-! ## Command/Response Bridge (`QGCApplication`) -/

/-- The active gimbal as seen through `getActiveGimbal()`: the min/max
fact strings that `getGimbalCapabilities()` reads. -/
structure GimbalDev where
  bodyYawMin : String
  bodyYawMax : String
  pitchMin : String
  pitchMax : String
  rollMin : String
  rollMax : String
deriving DecidableEq

/-- The active camera as seen through `getActiveCamera()`. -/
structure CameraDev where
  modelName : String
  hasZoom : Bool
deriving DecidableEq

/-- The registry state the bridge reads through its accessors:
`getActiveVehicle()` succeeding is `vehiclePresent`; `cameras` is the
camera-manager model-name list; `activeCamera` / `activeGimbal` are the
results of `getActiveCamera()` / `getActiveGimbal()` (`none` for a null
pointer). -/
structure BridgeEnv where
  vehiclePresent : Bool
  cameras : List String
  activeCamera : Option CameraDev
  activeGimbal : Option GimbalDev
deriving DecidableEq

/-- An argument handed to a device-controller call: either a C++ numeric
literal or the result of the external `QString::toFloat()` parse of a
request field. -/
inductive GimbalArg where
  | lit (q : ℚ)
  | parsed (s : String)
deriving DecidableEq

/-- One device-controller / vehicle operation invoked by the bridge. -/
inductive BridgeEffect where
  | openStreamPipeline
  | stopStreamPipeline
  | gimbalSetAbsolutePitch (a : GimbalArg)
  | gimbalSetBodyYaw (a : GimbalArg)
  | gimbalSetAbsoluteRoll (a : GimbalArg)
  | cameraSetZoom (q : ℚ)
  | cameraSetModePhoto
  | cameraTakePhoto
  | cameraSetModeVideo
  | cameraStartVideoRecording
  | cameraStopVideoRecording
  | servoMavCommand (p1 p2 : ℚ)
deriving DecidableEq

/-- The `axisList` member after construction: the in-class initializer
`{"pitch","yaw","roll","thrust"}` plus the `axisList << "pitch" << "yaw"
<< "roll"` appends in `init()` (`indexOf` finds the first occurrence). -/
def axisList : List String :=
  ["pitch", "yaw", "roll", "thrust"] ++ ["pitch", "yaw", "roll"]

/-- The `commandsList` member after construction: the 18-entry in-class
initializer plus the 13 entries `init()` appends again. -/
def commandsList : List String :=
  ["OPEN_STREAM", "STOP_STREAM", "RESET_GIMBAL", "MOVE_GIMBAL", "GET_CAMERAS",
   "SET_CAMERA", "SET_CAMERA_INTRINSICS", "GET_CAMERA", "ZOOM_CAMERA",
   "TAKE_PHOTO", "START_RECORDING", "STOP_RECORDING", "MAV_CMD_DO_SET_SERVO",
   "MOVE_VECTOR", "TAKE_OFF", "RETURN_TO_HOME", "VERTICAL_LANDING",
   "FLYING_TERMINATION_SYSTEM"] ++
  ["OPEN_STREAM", "STOP_STREAM", "RESET_GIMBAL", "MOVE_GIMBAL", "GET_CAMERAS",
   "SET_CAMERA", "SET_CAMERA_INTRINSICS", "GET_CAMERA", "ZOOM_CAMERA",
   "TAKE_PHOTO", "START_RECORDING", "STOP_RECORDING", "MAV_CMD_DO_SET_SERVO"]

/-- Embedding of `QList::indexOf`: first index of the element, `-1` when
absent. -/
def qlistIndexOf (l : List String) (s : String) : Int :=
  match l.findIdx? (fun x => x = s) with
  | some i => (i : Int)
  | none => -1

/-- Embedding of `QJsonObject QGCApplication::getGimbalCapabilities()`:
an empty object without an active gimbal, otherwise the yaw/pitch/roll
min/max ranges (the yaw range reads the body-yaw fact). -/
def getGimbalCapabilities (env : BridgeEnv) : JObj :=
  match env.activeGimbal with
  | none => []
  | some g =>
    [("yaw", .jObj [("min", .jStr g.bodyYawMin), ("max", .jStr g.bodyYawMax)]),
     ("pitch", .jObj [("min", .jStr g.pitchMin), ("max", .jStr g.pitchMax)]),
     ("roll", .jObj [("min", .jStr g.rollMin), ("max", .jStr g.rollMax)])]

/-- Embedding of `QJsonArray QGCApplication::getCameras()`: empty without
an active vehicle or with an empty camera list, otherwise one
`{index, name}` object per camera. -/
def getCamerasJson (env : BridgeEnv) : List JVal :=
  if ¬env.vehiclePresent ∨ env.cameras.length = 0 then []
  else
    (List.range env.cameras.length).zip env.cameras |>.map
      (fun p => .jObj [("index", .jNum (p.1 : ℚ)), ("name", .jStr p.2)])

/-- Embedding of `void QGCApplication::moveGimbal(QString axis, QString value)`:
returns silently without an active gimbal, otherwise dispatches on the
axis name (an unknown axis falls through the switch doing nothing). -/
def moveGimbalEffects (env : BridgeEnv) (axis value : String) : List BridgeEffect :=
  match env.activeGimbal with
  | none => []
  | some _ =>
    let i := qlistIndexOf axisList axis
    if i = 0 then [.gimbalSetAbsolutePitch (.parsed value)]
    else if i = 1 then [.gimbalSetBodyYaw (.parsed value)]
    else if i = 2 then [.gimbalSetAbsoluteRoll (.parsed value)]
    else []

/-- Embedding of `void QGCApplication::resetGimbal()`: returns silently
without an active gimbal, otherwise zeroes pitch, body yaw and roll. -/
def resetGimbalEffects (env : BridgeEnv) : List BridgeEffect :=
  match env.activeGimbal with
  | none => []
  | some _ =>
    [.gimbalSetAbsolutePitch (.lit 0), .gimbalSetBodyYaw (.lit 0),
     .gimbalSetAbsoluteRoll (.lit 0)]

/-- Embedding of `void QGCApplication::startStream()`: returns silently
without an active camera, otherwise starts the media pipeline (the
GStreamer internals are the external pipeline collaborator). -/
def startStreamEffects (env : BridgeEnv) : List BridgeEffect :=
  match env.activeCamera with
  | none => []
  | some _ => [.openStreamPipeline]

/-- Embedding of `void QGCApplication::stopStream()`: unconditionally
tears the pipeline down. -/
def stopStreamEffects : List BridgeEffect := [.stopStreamPipeline]

/-- Embedding of `void QGCApplication::setZoom(float value)`. -/
def setZoomEffects (env : BridgeEnv) (v : ℚ) : List BridgeEffect :=
  match env.activeCamera with
  | none => []
  | some _ => [.cameraSetZoom v]

/-- Embedding of `void QGCApplication::takePhoto()`. -/
def takePhotoEffects (env : BridgeEnv) : List BridgeEffect :=
  match env.activeCamera with
  | none => []
  | some _ => [.cameraSetModePhoto, .cameraTakePhoto]

/-- Embedding of `void QGCApplication::startRecording()`. -/
def startRecordingEffects (env : BridgeEnv) : List BridgeEffect :=
  match env.activeCamera with
  | none => []
  | some _ => [.cameraSetModeVideo, .cameraStartVideoRecording]

/-- Embedding of `void QGCApplication::stopRecording()`. -/
def stopRecordingEffects (env : BridgeEnv) : List BridgeEffect :=
  match env.activeCamera with
  | none => []
  | some _ => [.cameraStopVideoRecording]

/-- Embedding of `void QGCApplication::servoCmd(float, float)`: returns
silently without an active vehicle, otherwise sends
`MAV_CMD_DO_SET_SERVO` through the vehicle. -/
def servoCmdEffects (env : BridgeEnv) (p1 p2 : ℚ) : List BridgeEffect :=
  if env.vehiclePresent then [.servoMavCommand p1 p2] else []

/-- The `switch (this->commandsList.indexOf(...))` of
`QGCApplication::updateMessage`, acting on the parsed request object.
Returns the possibly annotated response object and the device effects,
or `none` when the handler dereferences a null pointer: the `GET_CAMERA`
case (7) enters its `if(!activeCamera)` block exactly when
`getActiveCamera()` returned null and immediately calls
`activeCamera->hasZoom()` on that null pointer (undefined behaviour). -/
def bridgeSwitch (env : BridgeEnv) (idx : Int) (message : JObj) :
    Option (JObj × List BridgeEffect) :=
  if idx = 0 then some (message, startStreamEffects env)
  else if idx = 1 then some (message, stopStreamEffects)
  else if idx = 2 then some (message, resetGimbalEffects env)
  else if idx = 3 then
    some (message,
      moveGimbalEffects env (jobjGetString message "axis") (jobjGetString message "value"))
  else if idx = 4 then
    some (jobjInsert message "availableCameraListData" (.jArr (getCamerasJson env)), [])
  else if idx = 5 then some (message, [])
  else if idx = 6 then some (message, [])
  else if idx = 7 then
    match env.activeCamera with
    | some _ => some (jobjInsert message "gimbalRange" (.jObj (getGimbalCapabilities env)), [])
    | none => none
  else if idx = 8 then
    some (message, setZoomEffects env (jobjGetNum message "zoomValue"))
  else if idx = 9 then some (message, takePhotoEffects env)
  else if idx = 10 then some (message, startRecordingEffects env)
  else if idx = 11 then some (message, stopRecordingEffects env)
  else if idx = 12 then
    some (message,
      servoCmdEffects env (jobjGetNum message "param1") (jobjGetNum message "param2"))
  else
    some (jobjInsert (jobjInsert message "status" (.jStr "KO")) "error" (.jStr "KO"), [])

/-- An inbound broker request as `updateMessage` sees it: the parsed JSON
payload, the MQTT 5 response topic and the correlation data from the
publish properties. -/
structure BridgeRequest where
  payload : JObj
  responseTopic : String
  correlationData : String

/-- A broker publication performed by the bridge. -/
structure BridgePublish where
  topic : String
  payload : JObj
  correlationData : String
  qos : Nat
  retain : Bool

/-- Embedding of `void QGCApplication::updateMessage(const QMqttMessage&)`:
dispatches on the `instruction` field through `commandsList.indexOf`, then
publishes the (possibly annotated) request object to the request's
response topic with the request's correlation data at QoS 1.  `none`
models the undefined behaviour of the `GET_CAMERA` null dereference. -/
def updateMessage (env : BridgeEnv) (req : BridgeRequest) :
    Option (List BridgeEffect × BridgePublish) :=
  let message := req.payload
  let idx := qlistIndexOf commandsList (jobjGetString message "instruction")
  (bridgeSwitch env idx message).map
    (fun r =>
      (r.2,
       { topic := req.responseTopic
         payload := r.1
         correlationData := req.correlationData
         qos := 1
         retain := false }))

/-! ## Battery averaging (`QGCApplication::sendAircraftPositionInfos`) -/

/-- C++ integer division as `Option`: division by zero is undefined
behaviour (on real targets a crash), modelled as `none`; otherwise the
quotient truncates toward zero. -/
def cppIntDiv (a b : Int) : Option Int :=
  if b = 0 then none else some (Int.tdiv a b)

/-- Embedding of the battery averaging of
`QGCApplication::sendAircraftPositionInfos`: `res` accumulates
`percentRemaining()->rawValue().toInt()` over all battery packs and the
snapshot field is `res / batteries->count()` — an unguarded integer
division by the pack count. -/
def batteryPowerPercentUav (percents : List Int) : Option Int :=
  cppIntDiv (percents.foldl (· + ·) 0) (percents.length : Int)

/-! ## Concrete fixtures used by witnesses and counterexamples -/

/-- An arbitrary ambient clock reading. -/
def envT : Env := ⟨500, 700⟩

/-- A connected link. -/
def link0 : Link := ⟨1, true⟩

/-- A freshly constructed vehicle with system id 1. -/
def uasA : UAS := uasInit 1 0

/-- A vehicle whose onboard-time offset has already been calibrated to a
nonzero value. -/
def clockUasOff3 : UAS := { uasInit 1 0 with onboardTimeOffset := 3 }

/-- A SYS_STATUS message reporting a 0 mV battery. -/
def battMsgA : MavMessage := ⟨1, 0, .sysStatus 100 0 128 0⟩

/-- A SYS_STATUS message reporting a 40000 mV battery. -/
def battMsgB : MavMessage := ⟨1, 0, .sysStatus 100 40000 128 0⟩

/-- SYS_STATUS sequence whose filtered voltage goes below the warn
threshold, recovers above it, then goes below again: battery readings
0 mV, 40000 mV, 0 mV, 0 mV, 0 mV against the initial filter state 12 V
and warn voltage 9.5 V give filtered values 8.4, 17.88, 12.516, 8.7612,
6.13284 (below, above, above, below, below). -/
def battSeq : List (Option Link × MavMessage) :=
  [(some link0, battMsgA), (some link0, battMsgB), (some link0, battMsgA),
   (some link0, battMsgA), (some link0, battMsgA)]

/-- Five messages of unknown type 9999 followed by one of unknown type
8888. -/
def unknownSeq : List (Option Link × MavMessage) :=
  List.replicate 5 ((some link0 : Option Link), (⟨1, 3, .unknown 9999⟩ : MavMessage)) ++
  [(some link0, ⟨1, 3, .unknown 8888⟩)]

/-- The GLOBAL_POSITION_INT message of the end-to-end scenario:
`lat=473977420`, `lon=85601520`, `alt=412000`. -/
def gpMsg : MavMessage := ⟨1, 7, .globalPositionInt 473977420 85601520 412000 0 0 0⟩

/-- A HEARTBEAT reporting `system_status = MAV_STATE_ACTIVE` and
`system_mode = MAV_MODE_GUIDED` (as `uint8` payload bytes). -/
def hbMsg : MavMessage := ⟨1, 0, .heartbeat 1 0 4 3 0⟩

/-- Bridge registry with no vehicle, camera or gimbal. -/
def cexEnv : BridgeEnv := ⟨false, [], none, none⟩

/-- The `MOVE_GIMBAL` request of the end-to-end scenario, with a response
topic and a correlation token. -/
def cexReq : BridgeRequest :=
  ⟨[("instruction", .jStr "MOVE_GIMBAL"), ("axis", .jStr "yaw"), ("value", .jStr "20")],
   "DRONE/RESPONSE/1", "corr-42"⟩

/-! ## Theorems -/

/-- C7: the voltage filter computes `previousFiltered * 0.7 + newSample * 0.3`
with fixed coefficients, so feeding a constant sample `v` repeatedly makes
the filtered value converge geometrically to `v`:
`|filtered_n - v| = 0.7^n * |filtered_0 - v|`. -/
theorem filterVoltage_geometric_convergence (n : Nat) (f0 v : ℚ) :
    |filterIter f0 v n - v| = (7 / 10) ^ n * |f0 - v| := by
  induction n with
  | zero => simp [filterIter]
  | succ n ih =>
    have h : filterIter f0 v (n + 1) - v = 7 / 10 * (filterIter f0 v n - v) := by
      show filterVoltage (filterIter f0 v n) v - v = _
      unfold filterVoltage
      ring
    rw [h, abs_mul, ih, abs_of_pos (by norm_num : (0 : ℚ) < 7 / 10)]
    ring

/-- C9: the periodic snapshot's battery-percentage field is the truncated
integer mean of `percentRemaining` over the packs, but the division is
unguarded: with zero battery packs the code divides by zero (undefined
behaviour / crash), so the computation is not well-defined there and the
"never a hard failure" policy is violated. -/
theorem batteryPowerPercentUav_zero_packs :
    batteryPowerPercentUav [] = none ∧
    batteryPowerPercentUav [40, 61] = some 50 ∧
    batteryPowerPercentUav [100, 100, 100] = some 100 := by decide

/-- C6: processing GLOBAL_POSITION_INT with raw `lat=473977420`,
`lon=85601520`, `alt=412000` sets `latitude = 47.397742`
(`lat / 1e7` degrees), `longitude = 8.560152`, `altitude = 412.0`
(`alt / 1e3` meters) and emits exactly one `globalPositionChanged`
notification carrying exactly these three values. -/
theorem globalPositionInt_scaling :
    (receiveMessage envT uasA (some link0) gpMsg).1.latitude = (473977420 : ℚ) / 10000000 ∧
    (receiveMessage envT uasA (some link0) gpMsg).1.longitude = (85601520 : ℚ) / 10000000 ∧
    (receiveMessage envT uasA (some link0) gpMsg).1.altitude = (412000 : ℚ) / 1000 ∧
    (receiveMessage envT uasA (some link0) gpMsg).1.latitude = 47397742 / 1000000 ∧
    (receiveMessage envT uasA (some link0) gpMsg).1.longitude = 8560152 / 1000000 ∧
    (receiveMessage envT uasA (some link0) gpMsg).1.altitude = 412 ∧
    (receiveMessage envT uasA (some link0) gpMsg).2.filter Event.isGlobalPosition =
      [.globalPositionChanged (47397742 / 1000000) (8560152 / 1000000) 412 700] := by
  norm_num [receiveMessage, addLinkTo, dispatchMessage, handleGlobalPositionInt,
    getUnixTimeNow, getUnixTime, gpMsg, uasA, uasInit, setBatteryLipo, envT, link0,
    Payload.msgid, two64, Event.isGlobalPosition, List.filter, msgIdGlobalPositionInt,
    msgIdAttitude]

/-- C3 counterexample: the claim promises that after the first
below-threshold call the offset is cached and never recomputed, but the
code uses `onboardTimeOffset == 0` as its "not yet calibrated" test.  A
first call with `raw = 1000` µs at ground time 1 ms computes offset
`1 - 1000/1000 = 0`, which is indistinguishable from "unset": the second
call with `raw = 2000` µs at ground time 5 ms recomputes the offset
(to 3) and returns `5`, not the `2000/1000 + 0 = 2` the claim requires. -/
theorem getUnixTime_sentinel_counterexample :
    (runClock (uasInit 1 0) [(1, 1000), (5, 2000)]).1 = [1, 5] ∧
    sub64 1 (1000 / 1000) = 0 ∧
    (2000 / 1000 + sub64 1 (1000 / 1000) = 2) ∧
    (5 : Nat) ≠ 2 := by decide

/-- C3 (amended): `getUnixTime` returns the current ground time for
`raw = 0` and `raw/1000` (uncached) above the 40-year threshold; a
below-threshold call with the offset still unset computes and stores
`offset = groundTime - raw/1000` (in `quint64` arithmetic); and provided
the stored offset is nonzero — `0` doubles as the "unset" sentinel — every
below-threshold call of any sequence returns `raw/1000 + offset` with the
cached offset, never recomputing it, regardless of backward or forward
onboard-clock jumps.  `getUnixReferenceTime` agrees whenever the
attitude-stamped mode is off. -/
theorem getUnixTime_offset_caching (s : UAS) (g r : Nat)
    (hatt : s.attitudeStamped = false) :
    (r = 0 → getUnixTime s g r = (g % two64, s)) ∧
    (fortyYearsUs ≤ r → getUnixTime s g r = (r / 1000, s)) ∧
    (0 < r → r < fortyYearsUs → s.onboardTimeOffset = 0 →
      getUnixTime s g r =
        ((r / 1000 + sub64 g (r / 1000)) % two64,
         { s with onboardTimeOffset := sub64 g (r / 1000) })) ∧
    (∀ calls : List (Nat × Nat), s.onboardTimeOffset ≠ 0 →
      (∀ c ∈ calls, 0 < c.2 ∧ c.2 < fortyYearsUs) →
      runClock s calls =
        (calls.map (fun c => (c.2 / 1000 + s.onboardTimeOffset) % two64), s)) ∧
    getUnixReferenceTime s g r = getUnixTime s g r := by
  refine ⟨?_, ?_, ?_, ?_, ?_⟩
  · intro h0
    simp [getUnixTime, hatt, h0]
  · intro hbig
    have h0 : r ≠ 0 := by
      intro h
      rw [h] at hbig
      exact absurd hbig (by decide)
    have hlt : ¬r < fortyYearsUs := not_lt.mpr hbig
    simp [getUnixTime, hatt, h0, hlt]
  · intro hpos hlt hoff
    simp [getUnixTime, hatt, Nat.pos_iff_ne_zero.mp hpos, hlt, hoff]
  · intro calls hoff hcalls
    induction calls with
    | nil => simp [runClock]
    | cons c rest ih =>
      have hc := hcalls c (by simp)
      have hstep : getUnixTime s c.1 c.2 =
          ((c.2 / 1000 + s.onboardTimeOffset) % two64, s) := by
        simp [getUnixTime, hatt, Nat.pos_iff_ne_zero.mp hc.1, hc.2, hoff]
      have hrest := ih (fun x hx => hcalls x (by simp [hx]))
      simp [runClock, hstep, hrest]
  · simp [getUnixTime, getUnixReferenceTime, hatt]

/-- C3 witness: with a calibrated nonzero offset (3 ms), a zero raw
timestamp resolves to ground time, an at-threshold timestamp is treated
as absolute epoch time, and a sequence that jumps backward
(2000 µs then 500 µs) resolves through the cached offset unchanged. -/
theorem getUnixTime_offset_caching_witness :
    getUnixTime clockUasOff3 7 0 = (7 % two64, clockUasOff3) ∧
    getUnixTime clockUasOff3 7 1261440000000000 = (1261440000000, clockUasOff3) ∧
    (runClock clockUasOff3 [(7, 2000), (9, 500)]).1 = [5, 3] ∧
    (runClock clockUasOff3 [(7, 2000), (9, 500)]).2.onboardTimeOffset = 3 := by
  have h1 := (getUnixTime_offset_caching clockUasOff3 7 0 (by decide)).1 rfl
  have h2 := (getUnixTime_offset_caching clockUasOff3 7 1261440000000000
    (by decide)).2.1 (by decide)
  have h4 := ((getUnixTime_offset_caching clockUasOff3 7 0 (by decide)).2.2.2.1
    [(7, 2000), (9, 500)] (by decide) (by decide))
  rw [show (1261440000000000 : Nat) / 1000 = 1261440000000 from by norm_num] at h2
  refine ⟨h1, h2, ?_, ?_⟩
  · rw [h4]; decide
  · rw [h4]; rfl

/-- Adding a link touches no field but the link set. -/
@[simp] theorem addLinkTo_uasId (s : UAS) (l : Link) : (addLinkTo s l).uasId = s.uasId := by
  unfold addLinkTo
  split <;> rfl

/-- Adding a link preserves the attitude-stamped flag. -/
@[simp] theorem addLinkTo_attitudeStamped (s : UAS) (l : Link) :
    (addLinkTo s l).attitudeStamped = s.attitudeStamped := by
  unfold addLinkTo
  split <;> rfl

/-- Adding a link preserves the recorded unknown packet ids. -/
@[simp] theorem addLinkTo_unknownPackets (s : UAS) (l : Link) :
    (addLinkTo s l).unknownPackets = s.unknownPackets := by
  unfold addLinkTo
  split <;> rfl

/-- Adding a link preserves the status field. -/
@[simp] theorem addLinkTo_status (s : UAS) (l : Link) : (addLinkTo s l).status = s.status := by
  unfold addLinkTo
  split <;> rfl

/-- Adding a link preserves the mode field. -/
@[simp] theorem addLinkTo_mode (s : UAS) (l : Link) : (addLinkTo s l).mode = s.mode := by
  unfold addLinkTo
  split <;> rfl

/-- Adding a link preserves the filtered voltage. -/
@[simp] theorem addLinkTo_lpVoltage (s : UAS) (l : Link) :
    (addLinkTo s l).lpVoltage = s.lpVoltage := by
  unfold addLinkTo
  split <;> rfl

/-- Adding a link preserves the warn voltage. -/
@[simp] theorem addLinkTo_warnVoltage (s : UAS) (l : Link) :
    (addLinkTo s l).warnVoltage = s.warnVoltage := by
  unfold addLinkTo
  split <;> rfl

/-- Adding a link preserves the low-battery alarm latch. -/
@[simp] theorem addLinkTo_lowBattAlarm (s : UAS) (l : Link) :
    (addLinkTo s l).lowBattAlarm = s.lowBattAlarm := by
  unfold addLinkTo
  split <;> rfl

/-- C5: the first message of an unknown type records the type and raises
the pair of "unable to decode" notifications; a repeat of a recorded type
raises nothing; five messages of unknown type 9999 followed by one of
unknown type 8888 yield exactly two `textMessageReceived` notifications
and the two recorded types. -/
theorem unknownMessage_dedup (env : Env) (s : UAS) (l : Link) (sysid compid id : Nat)
    (hsys : (sysid : Int) = s.uasId) (hatt : s.attitudeStamped = false)
    (hid : id ∉ [msgIdHeartbeat, msgIdSysStatus, msgIdGlobalPositionInt,
      msgIdLocalPositionSetpointSet, msgIdAttitude]) :
    (id ∉ s.unknownPackets →
      receiveMessage env s (some l) ⟨sysid, compid, .unknown id⟩ =
        ({ addLinkTo s l with unknownPackets := s.unknownPackets ++ [id] },
         [.audioSay ("UNABLE TO DECODE MESSAGE NUMBER " ++ toString id ++
            ", please check console for details."),
          .textMessageReceived s.uasId compid 255
            ("UNABLE TO DECODE MESSAGE NUMBER " ++ toString id)])) ∧
    (id ∈ s.unknownPackets →
      receiveMessage env s (some l) ⟨sysid, compid, .unknown id⟩ = (addLinkTo s l, [])) ∧
    (runMessages envT (uasInit 1 0) unknownSeq).2.countP Event.isTextMessage = 2 ∧
    (runMessages envT (uasInit 1 0) unknownSeq).1.unknownPackets = [9999, 8888] := by
  refine ⟨?_, ?_, ?_, ?_⟩
  · intro hnew
    simp [receiveMessage, dispatchMessage, handleUnknown, hsys, hatt, hnew]
  · intro hold
    simp [receiveMessage, dispatchMessage, handleUnknown, hsys, hatt, hold]
  · decide
  · decide

/-- C5 witness: instantiates the deduplication theorem on a fresh vehicle
and unknown type 9999 from system 1: the first delivery records the type
and raises the two notifications. -/
theorem unknownMessage_dedup_witness :
    receiveMessage envT uasA (some link0) ⟨1, 3, .unknown 9999⟩ =
      ({ addLinkTo uasA link0 with unknownPackets := [9999] },
       [.audioSay "UNABLE TO DECODE MESSAGE NUMBER 9999, please check console for details.",
        .textMessageReceived 1 3 255 "UNABLE TO DECODE MESSAGE NUMBER 9999"]) := by
  have h := (unknownMessage_dedup envT uasA link0 1 3 9999 (by decide) (by decide)
    (by decide)).1 (by decide)
  simpa [uasA, uasInit, setBatteryLipo] using h

/-- The battery bookkeeping prefix leaves the filter output as stated and
touches neither the warn voltage, the alarm latch nor the mode. -/
@[simp] theorem sysStatusBattery_lpVoltage (env : Env) (s : UAS) (vb bp : Nat) :
    (sysStatusBattery env s vb bp).lpVoltage = filterVoltage s.lpVoltage ((vb : ℚ) / 1000) := by
  unfold sysStatusBattery
  dsimp only
  split <;> split <;> rfl

/-- The battery bookkeeping prefix preserves the warn voltage. -/
@[simp] theorem sysStatusBattery_warnVoltage (env : Env) (s : UAS) (vb bp : Nat) :
    (sysStatusBattery env s vb bp).warnVoltage = s.warnVoltage := by
  unfold sysStatusBattery
  dsimp only
  split <;> split <;> rfl

/-- The battery bookkeeping prefix preserves the alarm latch. -/
@[simp] theorem sysStatusBattery_lowBattAlarm (env : Env) (s : UAS) (vb bp : Nat) :
    (sysStatusBattery env s vb bp).lowBattAlarm = s.lowBattAlarm := by
  unfold sysStatusBattery
  dsimp only
  split <;> split <;> rfl

/-- The battery bookkeeping prefix preserves the mode. -/
@[simp] theorem sysStatusBattery_mode (env : Env) (s : UAS) (vb bp : Nat) :
    (sysStatusBattery env s vb bp).mode = s.mode := by
  unfold sysStatusBattery
  dsimp only
  split <;> split <;> rfl

/-- The battery bookkeeping prefix preserves the vehicle name. -/
@[simp] theorem sysStatusBattery_name (env : Env) (s : UAS) (vb bp : Nat) :
    (sysStatusBattery env s vb bp).name = s.name := by
  unfold sysStatusBattery
  dsimp only
  split <;> split <;> rfl

/-- The battery bookkeeping prefix preserves the link set. -/
@[simp] theorem sysStatusBattery_links (env : Env) (s : UAS) (vb bp : Nat) :
    (sysStatusBattery env s vb bp).links = s.links := by
  unfold sysStatusBattery
  dsimp only
  split <;> split <;> rfl

/-- The battery bookkeeping prefix preserves the vehicle id. -/
@[simp] theorem sysStatusBattery_uasId (env : Env) (s : UAS) (vb bp : Nat) :
    (sysStatusBattery env s vb bp).uasId = s.uasId := by
  unfold sysStatusBattery
  dsimp only
  split <;> split <;> rfl

/-- The battery bookkeeping prefix preserves the attitude-stamped flag. -/
@[simp] theorem sysStatusBattery_attitudeStamped (env : Env) (s : UAS) (vb bp : Nat) :
    (sysStatusBattery env s vb bp).attitudeStamped = s.attitudeStamped := by
  unfold sysStatusBattery
  dsimp only
  split <;> split <;> rfl

/-- The battery bookkeeping prefix preserves the unknown-packet record. -/
@[simp] theorem sysStatusBattery_unknownPackets (env : Env) (s : UAS) (vb bp : Nat) :
    (sysStatusBattery env s vb bp).unknownPackets = s.unknownPackets := by
  unfold sysStatusBattery
  dsimp only
  split <;> split <;> rfl

/-- `getChargeLevel` writes only the charge level. -/
@[simp] theorem getChargeLevel_snd (s : UAS) :
    (getChargeLevel s).2 = { s with chargeLevel := (getChargeLevel s).1 } := by
  unfold getChargeLevel
  split <;> rfl

/-- The SYS_STATUS handler leaves the alarm latch equal to "filtered
voltage below warn threshold" and raises the alert exactly on a fresh
downward crossing; it never touches the mode field. -/
theorem handleSysStatus_alarm (env : Env) (s : UAS) (sysid ld vb bp eu : Nat) :
    ((handleSysStatus env s sysid ld vb bp eu).1.lowBattAlarm
        = decide (filterVoltage s.lpVoltage ((vb : ℚ) / 1000) < s.warnVoltage)) ∧
    ((handleSysStatus env s sysid ld vb bp eu).2.countP Event.isAudioAlert =
      if filterVoltage s.lpVoltage ((vb : ℚ) / 1000) < s.warnVoltage ∧
          s.lowBattAlarm = false then 1 else 0) ∧
    ((handleSysStatus env s sysid ld vb bp eu).1.mode = s.mode) := by
  unfold handleSysStatus sysStatusAlarm startLowBattAlarm stopLowBattAlarm
  by_cases hlt : filterVoltage s.lpVoltage ((vb : ℚ) / 1000) < s.warnVoltage <;>
    by_cases halarm : s.lowBattAlarm <;>
      simp [hlt, halarm, Event.isAudioAlert, List.countP_append, List.countP_cons]

/-- The alarm edge changes at most the latch flag. -/
@[simp] theorem sysStatusAlarm_fst (s : UAS) :
    (sysStatusAlarm s).1 = { s with lowBattAlarm := decide (s.lpVoltage < s.warnVoltage) } := by
  have heta : ∀ b, s.lowBattAlarm = b → s = { s with lowBattAlarm := b } := fun b hb => by
    rw [← hb]
  rcases Bool.eq_false_or_eq_true s.lowBattAlarm with hb | hb <;>
    by_cases hlt : s.lpVoltage < s.warnVoltage <;>
      simp [sysStatusAlarm, startLowBattAlarm, stopLowBattAlarm, hb, hlt] <;>
        exact heta _ hb

/-- Projections of `receiveMessage` on a SYS_STATUS message for the
vehicle itself: the new filter output, the untouched warn voltage,
identity and gating flag, the latch law, and the alert count. -/
theorem receiveMessage_sysStatus_proj (env : Env) (s : UAS) (l : Link)
    (sysid compid ld vb bp eu : Nat)
    (hsys : (sysid : Int) = s.uasId) (hatt : s.attitudeStamped = false) :
    ((receiveMessage env s (some l) ⟨sysid, compid, .sysStatus ld vb bp eu⟩).1.lpVoltage
        = filterVoltage s.lpVoltage ((vb : ℚ) / 1000)) ∧
    ((receiveMessage env s (some l) ⟨sysid, compid, .sysStatus ld vb bp eu⟩).1.warnVoltage
        = s.warnVoltage) ∧
    ((receiveMessage env s (some l) ⟨sysid, compid, .sysStatus ld vb bp eu⟩).1.attitudeStamped
        = s.attitudeStamped) ∧
    ((receiveMessage env s (some l) ⟨sysid, compid, .sysStatus ld vb bp eu⟩).1.uasId
        = s.uasId) ∧
    ((receiveMessage env s (some l) ⟨sysid, compid, .sysStatus ld vb bp eu⟩).1.lowBattAlarm
        = decide (filterVoltage s.lpVoltage ((vb : ℚ) / 1000) < s.warnVoltage)) ∧
    ((receiveMessage env s (some l) ⟨sysid, compid, .sysStatus ld vb bp eu⟩).2.countP
        Event.isAudioAlert =
      if filterVoltage s.lpVoltage ((vb : ℚ) / 1000) < s.warnVoltage ∧
          s.lowBattAlarm = false then 1 else 0) := by
  have key := handleSysStatus_alarm env (addLinkTo s l) sysid ld vb bp eu
  have hred : receiveMessage env s (some l) ⟨sysid, compid, .sysStatus ld vb bp eu⟩
      = handleSysStatus env (addLinkTo s l) sysid ld vb bp eu := by
    simp [receiveMessage, dispatchMessage, hsys, hatt]
  have hfst : ∀ s2 : UAS, (handleSysStatus env s2 sysid ld vb bp eu).1 =
      (sysStatusAlarm (getChargeLevel (sysStatusBattery env s2 vb bp)).2).1 :=
    fun _ => rfl
  rw [hred]
  refine ⟨?_, ?_, ?_, ?_, ?_, ?_⟩
  · simp [hfst]
  · simp [hfst]
  · simp [hfst, hatt]
  · simp [hfst]
  · simp [hfst]
  · simpa using key.2.1

/-- Evaluation of the five-sample battery run: the alert fires exactly
twice, and the latch is set after samples 1, 4 and 5 and clear after
sample 2. -/
theorem battSeqRunFacts :
    ((runMessages envT (uasInit 1 0) battSeq).2.countP Event.isAudioAlert = 2) ∧
    ((runMessages envT (uasInit 1 0) [(some link0, battMsgA)]).1.lowBattAlarm = true) ∧
    ((runMessages envT (uasInit 1 0)
        [(some link0, battMsgA), (some link0, battMsgB)]).1.lowBattAlarm = false) ∧
    ((runMessages envT (uasInit 1 0)
        [(some link0, battMsgA), (some link0, battMsgB), (some link0, battMsgA),
         (some link0, battMsgA)]).1.lowBattAlarm = true) ∧
    ((runMessages envT (uasInit 1 0) battSeq).1.lowBattAlarm = true) := by
  simp only [battSeq, battMsgA, battMsgB, runMessages, List.countP_append, List.countP_nil]
  set S1 := (receiveMessage envT (uasInit 1 0) (some link0)
    (⟨1, 0, .sysStatus 100 0 128 0⟩ : MavMessage)).1 with hS1
  set S2 := (receiveMessage envT S1 (some link0)
    (⟨1, 0, .sysStatus 100 40000 128 0⟩ : MavMessage)).1 with hS2
  set S3 := (receiveMessage envT S2 (some link0)
    (⟨1, 0, .sysStatus 100 0 128 0⟩ : MavMessage)).1 with hS3
  set S4 := (receiveMessage envT S3 (some link0)
    (⟨1, 0, .sysStatus 100 0 128 0⟩ : MavMessage)).1 with hS4
  set S5 := (receiveMessage envT S4 (some link0)
    (⟨1, 0, .sysStatus 100 0 128 0⟩ : MavMessage)).1 with hS5
  have h0lp : (uasInit 1 0).lpVoltage = 12 := rfl
  have h0warn : (uasInit 1 0).warnVoltage = 19 / 2 := rfl
  have h0al : (uasInit 1 0).lowBattAlarm = false := rfl
  obtain ⟨a1lp, a1warn, a1att, a1id, a1al, a1cnt⟩ :=
    receiveMessage_sysStatus_proj envT (uasInit 1 0) link0 1 0 100 0 128 0 rfl rfl
  rw [h0lp] at a1lp a1al a1cnt
  rw [h0warn] at a1warn a1al a1cnt
  rw [h0al] at a1cnt
  rw [show (uasInit 1 0).attitudeStamped = false from rfl] at a1att
  rw [show (uasInit 1 0).uasId = 1 from rfl] at a1id
  norm_num [filterVoltage] at a1lp a1al
  have c1 : List.countP Event.isAudioAlert
      (receiveMessage envT (uasInit 1 0) (some link0)
        (⟨1, 0, .sysStatus 100 0 128 0⟩ : MavMessage)).2 = 1 := by
    rw [a1cnt]
    norm_num [filterVoltage]
  obtain ⟨a2lp, a2warn, a2att, a2id, a2al, a2cnt⟩ :=
    receiveMessage_sysStatus_proj envT S1 link0 1 0 100 40000 128 0
      (by rw [a1id]; rfl) (by rw [a1att])
  rw [a1lp] at a2lp a2al a2cnt
  rw [a1warn] at a2warn a2al a2cnt
  rw [a1al] at a2cnt
  rw [a1att] at a2att
  rw [a1id] at a2id
  norm_num [filterVoltage] at a2lp a2al
  have c2 : List.countP Event.isAudioAlert
      (receiveMessage envT S1 (some link0)
        (⟨1, 0, .sysStatus 100 40000 128 0⟩ : MavMessage)).2 = 0 := by
    rw [a2cnt]
    norm_num [filterVoltage]
  obtain ⟨a3lp, a3warn, a3att, a3id, a3al, a3cnt⟩ :=
    receiveMessage_sysStatus_proj envT S2 link0 1 0 100 0 128 0
      (by rw [a2id]; rfl) (by rw [a2att])
  rw [a2lp] at a3lp a3al a3cnt
  rw [a2warn] at a3warn a3al a3cnt
  rw [a2al] at a3cnt
  rw [a2att] at a3att
  rw [a2id] at a3id
  norm_num [filterVoltage] at a3lp a3al
  have c3 : List.countP Event.isAudioAlert
      (receiveMessage envT S2 (some link0)
        (⟨1, 0, .sysStatus 100 0 128 0⟩ : MavMessage)).2 = 0 := by
    rw [a3cnt]
    norm_num [filterVoltage]
  obtain ⟨a4lp, a4warn, a4att, a4id, a4al, a4cnt⟩ :=
    receiveMessage_sysStatus_proj envT S3 link0 1 0 100 0 128 0
      (by rw [a3id]; rfl) (by rw [a3att])
  rw [a3lp] at a4lp a4al a4cnt
  rw [a3warn] at a4warn a4al a4cnt
  rw [a3al] at a4cnt
  rw [a3att] at a4att
  rw [a3id] at a4id
  norm_num [filterVoltage] at a4lp a4al
  have c4 : List.countP Event.isAudioAlert
      (receiveMessage envT S3 (some link0)
        (⟨1, 0, .sysStatus 100 0 128 0⟩ : MavMessage)).2 = 1 := by
    rw [a4cnt]
    norm_num [filterVoltage]
  obtain ⟨a5lp, a5warn, a5att, a5id, a5al, a5cnt⟩ :=
    receiveMessage_sysStatus_proj envT S4 link0 1 0 100 0 128 0
      (by rw [a4id]; rfl) (by rw [a4att])
  rw [a4lp] at a5lp a5al a5cnt
  rw [a4warn] at a5warn a5al a5cnt
  rw [a4al] at a5cnt
  norm_num [filterVoltage] at a5lp a5al
  have c5 : List.countP Event.isAudioAlert
      (receiveMessage envT S4 (some link0)
        (⟨1, 0, .sysStatus 100 0 128 0⟩ : MavMessage)).2 = 0 := by
    rw [a5cnt]
    norm_num [filterVoltage]
  refine ⟨?_, a1al, a2al, a4al, a5al⟩
  simp only [c1, c2, c3, c4, c5]

/-- The heartbeat type block does not touch the status field. -/
@[simp] theorem hbTypeStep_status (s : UAS) (t ap : Nat) :
    (hbTypeStep s t ap).1.status = s.status := by
  unfold hbTypeStep setAirframe
  dsimp only
  (repeat' split) <;> rfl

/-- The heartbeat type block does not touch the mode field. -/
@[simp] theorem hbTypeStep_mode (s : UAS) (t ap : Nat) :
    (hbTypeStep s t ap).1.mode = s.mode := by
  unfold hbTypeStep setAirframe
  dsimp only
  (repeat' split) <;> rfl

/-- The heartbeat type block does not touch the heartbeat timestamp. -/
@[simp] theorem hbTypeStep_lastHeartbeat (s : UAS) (t ap : Nat) :
    (hbTypeStep s t ap).1.lastHeartbeat = s.lastHeartbeat := by
  unfold hbTypeStep setAirframe
  dsimp only
  (repeat' split) <;> rfl

/-- The heartbeat type block emits no `statusChanged` (text overload). -/
@[simp] theorem hbTypeStep_count_statusText (s : UAS) (t ap : Nat) :
    (hbTypeStep s t ap).2.countP Event.isStatusChangedText = 0 := by
  unfold hbTypeStep setAirframe
  dsimp only
  (repeat' split) <;> rfl

/-- The heartbeat type block emits no `statusChanged` (code overload). -/
@[simp] theorem hbTypeStep_count_statusCode (s : UAS) (t ap : Nat) :
    (hbTypeStep s t ap).2.countP Event.isStatusChangedCode = 0 := by
  unfold hbTypeStep setAirframe
  dsimp only
  (repeat' split) <;> rfl

/-- The heartbeat type block emits no `modeChanged`. -/
@[simp] theorem hbTypeStep_count_modeChanged (s : UAS) (t ap : Nat) :
    (hbTypeStep s t ap).2.countP Event.isModeChanged = 0 := by
  unfold hbTypeStep setAirframe
  dsimp only
  (repeat' split) <;> rfl

/-- The heartbeat nav-mode block does not touch the status field. -/
@[simp] theorem hbNavStep_status (s : UAS) (fm : Nat) :
    (hbNavStep s fm).1.status = s.status := by
  unfold hbNavStep
  split <;> rfl

/-- The heartbeat nav-mode block does not touch the mode field. -/
@[simp] theorem hbNavStep_mode (s : UAS) (fm : Nat) :
    (hbNavStep s fm).1.mode = s.mode := by
  unfold hbNavStep
  split <;> rfl

/-- The heartbeat nav-mode block does not touch the heartbeat timestamp. -/
@[simp] theorem hbNavStep_lastHeartbeat (s : UAS) (fm : Nat) :
    (hbNavStep s fm).1.lastHeartbeat = s.lastHeartbeat := by
  unfold hbNavStep
  split <;> rfl

/-- The heartbeat nav-mode block emits no `statusChanged` (text overload). -/
@[simp] theorem hbNavStep_count_statusText (s : UAS) (fm : Nat) :
    (hbNavStep s fm).2.1.countP Event.isStatusChangedText = 0 := by
  unfold hbNavStep
  split <;> rfl

/-- The heartbeat nav-mode block emits no `statusChanged` (code overload). -/
@[simp] theorem hbNavStep_count_statusCode (s : UAS) (fm : Nat) :
    (hbNavStep s fm).2.1.countP Event.isStatusChangedCode = 0 := by
  unfold hbNavStep
  split <;> rfl

/-- The heartbeat nav-mode block emits no `modeChanged`. -/
@[simp] theorem hbNavStep_count_modeChanged (s : UAS) (fm : Nat) :
    (hbNavStep s fm).2.1.countP Event.isModeChanged = 0 := by
  unfold hbNavStep
  split <;> rfl

/-- Evaluation of the heartbeat status block on a changed status. -/
theorem hbStatusStep_changed (s : UAS) (ss : Nat) (h : (ss : Int) ≠ s.status) :
    hbStatusStep s ss =
      ({ s with status := (ss : Int), shortStateText := (getStatusForCode (ss : Int)).1 },
       [.statusChangedText (getStatusForCode (ss : Int)).1 (getStatusForCode (ss : Int)).2,
        .statusChangedCode (ss : Int)],
       " changed status to " ++ (getStatusForCode (ss : Int)).1, true) := by
  simp [hbStatusStep, h]

/-- Evaluation of the heartbeat mode block on a changed mode. -/
theorem hbModeStep_changed (s : UAS) (sm : Nat) (h : (sm : Int) ≠ s.mode) :
    hbModeStep s sm =
      ({ s with mode := (sm : Int), shortModeText := getShortModeTextFor (sm : Int) },
       [.modeChanged s.uasId (getShortModeTextFor (sm : Int)) ""],
       " is now in " ++ getShortModeTextFor (sm : Int), true) := by
  simp [hbModeStep, h]

/-- The HEARTBEAT handler on a heartbeat whose status and mode both
differ from the stored values: both fields are updated, the heartbeat
timestamp is set to the current ground time, and each of the
`statusChanged` overloads and `modeChanged` fires exactly once. -/
theorem handleHeartbeat_spec (env : Env) (s : UAS) (t ap ss sm fm : Nat)
    (hss : (ss : Int) ≠ s.status) (hsm : (sm : Int) ≠ s.mode) :
    ((handleHeartbeat env s t ap ss sm fm).1.status = (ss : Int)) ∧
    ((handleHeartbeat env s t ap ss sm fm).1.mode = (sm : Int)) ∧
    ((handleHeartbeat env s t ap ss sm fm).1.lastHeartbeat = env.groundTimeUsecs) ∧
    ((handleHeartbeat env s t ap ss sm fm).2.countP Event.isStatusChangedText = 1) ∧
    ((handleHeartbeat env s t ap ss sm fm).2.countP Event.isStatusChangedCode = 1) ∧
    ((handleHeartbeat env s t ap ss sm fm).2.countP Event.isModeChanged = 1) := by
  have hss1 : (ss : Int) ≠ (hbTypeStep { s with lastHeartbeat := env.groundTimeUsecs } t ap).1.status := by
    simpa using hss
  simp only [handleHeartbeat]
  rw [hbStatusStep_changed _ _ hss1]
  dsimp only
  rw [hbModeStep_changed _ _ (by simpa using hsm)]
  dsimp only
  refine ⟨by simp, by simp, by simp, ?_, ?_, ?_⟩ <;>
    simp [List.countP_append, List.countP_cons, Event.isStatusChangedText,
      Event.isStatusChangedCode, Event.isModeChanged] <;>
    (repeat' split) <;>
    simp <;>
    rintro a - (rfl | rfl) <;> rfl

/-- The heartbeat status block does not touch the mode field. -/
@[simp] theorem hbStatusStep_mode (s : UAS) (ss : Nat) :
    (hbStatusStep s ss).1.mode = s.mode := by
  unfold hbStatusStep
  split <;> rfl

/-- The heartbeat mode block stores the new mode exactly when it differs
from the stored one. -/
theorem hbModeStep_mode (s : UAS) (sm : Nat) :
    (hbModeStep s sm).1.mode = if (sm : Int) = s.mode then s.mode else (sm : Int) := by
  unfold hbModeStep
  split <;> simp_all

/-- The mode after a HEARTBEAT is the reported `system_mode` when it
differs from the stored mode, else unchanged. -/
theorem handleHeartbeat_mode (env : Env) (s : UAS) (t ap ss sm fm : Nat) :
    (handleHeartbeat env s t ap ss sm fm).1.mode =
      if (sm : Int) = s.mode then s.mode else (sm : Int) := by
  unfold handleHeartbeat
  dsimp only
  simp [hbModeStep_mode]

/-- The GLOBAL_POSITION_INT handler does not touch the mode field. -/
@[simp] theorem handleGlobalPositionInt_mode (env : Env) (s : UAS) (la lo al vx vy vz : Int) :
    (handleGlobalPositionInt env s la lo al vx vy vz).1.mode = s.mode := rfl

/-- The unknown-message branch does not touch the mode field. -/
@[simp] theorem handleUnknown_mode (s : UAS) (cp id : Nat) :
    (handleUnknown s cp id).1.mode = s.mode := by
  unfold handleUnknown
  split <;> rfl

/-- C2: a HEARTBEAT addressed to the vehicle whose `system_status` and
`system_mode` both differ from the stored values sets `status` and `mode`
to the new values, stamps `lastHeartbeat` with the current ground time,
and fires each `statusChanged` overload and `modeChanged` exactly once. -/
theorem heartbeat_status_mode_update (env : Env) (s : UAS) (l : Link)
    (sysid compid t ap ss sm fm : Nat)
    (hsys : (sysid : Int) = s.uasId) (hatt : s.attitudeStamped = false)
    (hss : (ss : Int) ≠ s.status) (hsm : (sm : Int) ≠ s.mode) :
    ((receiveMessage env s (some l) ⟨sysid, compid, .heartbeat t ap ss sm fm⟩).1.status
        = (ss : Int)) ∧
    ((receiveMessage env s (some l) ⟨sysid, compid, .heartbeat t ap ss sm fm⟩).1.mode
        = (sm : Int)) ∧
    ((receiveMessage env s (some l) ⟨sysid, compid, .heartbeat t ap ss sm fm⟩).1.lastHeartbeat
        = env.groundTimeUsecs) ∧
    ((receiveMessage env s (some l) ⟨sysid, compid, .heartbeat t ap ss sm fm⟩).2.countP
        Event.isStatusChangedText = 1) ∧
    ((receiveMessage env s (some l) ⟨sysid, compid, .heartbeat t ap ss sm fm⟩).2.countP
        Event.isStatusChangedCode = 1) ∧
    ((receiveMessage env s (some l) ⟨sysid, compid, .heartbeat t ap ss sm fm⟩).2.countP
        Event.isModeChanged = 1) := by
  have hred : receiveMessage env s (some l) ⟨sysid, compid, .heartbeat t ap ss sm fm⟩
      = handleHeartbeat env (addLinkTo s l) t ap ss sm fm := by
    simp [receiveMessage, dispatchMessage, hsys, hatt]
  rw [hred]
  exact handleHeartbeat_spec env (addLinkTo s l) t ap ss sm fm
    (by simpa using hss) (by simpa using hsm)

/-- C2 witness: a fresh vehicle (status and mode both `-1`) receiving a
heartbeat reporting status 4 (ACTIVE) and mode 3 (GUIDED) ends with
`status = 4`, `mode = 3`, `lastHeartbeat` equal to the ambient ground
microsecond clock, and one emission of each change notification. -/
theorem heartbeat_status_mode_update_witness :
    ((receiveMessage envT uasA (some link0) hbMsg).1.status = 4) ∧
    ((receiveMessage envT uasA (some link0) hbMsg).1.mode = 3) ∧
    ((receiveMessage envT uasA (some link0) hbMsg).1.lastHeartbeat = 500) ∧
    ((receiveMessage envT uasA (some link0) hbMsg).2.countP Event.isStatusChangedText = 1) ∧
    ((receiveMessage envT uasA (some link0) hbMsg).2.countP Event.isStatusChangedCode = 1) ∧
    ((receiveMessage envT uasA (some link0) hbMsg).2.countP Event.isModeChanged = 1) :=
  heartbeat_status_mode_update envT uasA link0 1 0 1 0 4 3 0 rfl rfl
    (by decide) (by decide)

/-- C4: the low-battery alarm is latched.  For every SYS_STATUS message
the latch afterwards equals "filtered voltage below `warnVoltage`" and the
alert fires exactly when that holds with the latch previously clear
(edge-triggered, once per downward crossing).  Concretely, the `battSeq`
sequence, whose filtered voltage goes below the threshold, recovers, and
goes below again, fires the alert exactly twice over five samples —
the latch is set after samples 1, 4 and 5 but clear after sample 2, and
the repeated below-threshold samples 3 (still latched from nothing) and 5
(already latched) fire nothing. -/
theorem lowBattAlarm_latched (env : Env) (s : UAS) (l : Link) (sysid compid ld vb bp eu : Nat)
    (hsys : (sysid : Int) = s.uasId) (hatt : s.attitudeStamped = false) :
    ((receiveMessage env s (some l) ⟨sysid, compid, .sysStatus ld vb bp eu⟩).1.lowBattAlarm
        = decide (filterVoltage s.lpVoltage ((vb : ℚ) / 1000) < s.warnVoltage)) ∧
    ((receiveMessage env s (some l) ⟨sysid, compid, .sysStatus ld vb bp eu⟩).2.countP
        Event.isAudioAlert =
      if filterVoltage s.lpVoltage ((vb : ℚ) / 1000) < s.warnVoltage ∧
          s.lowBattAlarm = false then 1 else 0) ∧
    ((runMessages envT (uasInit 1 0) battSeq).2.countP Event.isAudioAlert = 2) ∧
    ((runMessages envT (uasInit 1 0) [(some link0, battMsgA)]).1.lowBattAlarm = true) ∧
    ((runMessages envT (uasInit 1 0)
        [(some link0, battMsgA), (some link0, battMsgB)]).1.lowBattAlarm = false) ∧
    ((runMessages envT (uasInit 1 0)
        [(some link0, battMsgA), (some link0, battMsgB), (some link0, battMsgA),
         (some link0, battMsgA)]).1.lowBattAlarm = true) ∧
    ((runMessages envT (uasInit 1 0) battSeq).1.lowBattAlarm = true) := by
  have hp := receiveMessage_sysStatus_proj env s l sysid compid ld vb bp eu hsys hatt
  exact ⟨hp.2.2.2.2.1, hp.2.2.2.2.2, battSeqRunFacts.1, battSeqRunFacts.2.1,
    battSeqRunFacts.2.2.1, battSeqRunFacts.2.2.2.1, battSeqRunFacts.2.2.2.2⟩

/-- C4 witness: on a fresh vehicle (filter state 12 V, warn voltage 9.5 V,
latch clear), a SYS_STATUS reading of 0 mV filters to 8.4 V, sets the
latch and fires exactly one alert. -/
theorem lowBattAlarm_latched_witness :
    ((receiveMessage envT uasA (some link0) ⟨1, 0, .sysStatus 100 0 128 0⟩).1.lowBattAlarm
        = decide (filterVoltage uasA.lpVoltage ((0 : ℚ) / 1000) < uasA.warnVoltage)) ∧
    ((receiveMessage envT uasA (some link0) ⟨1, 0, .sysStatus 100 0 128 0⟩).2.countP
        Event.isAudioAlert =
      if filterVoltage uasA.lpVoltage ((0 : ℚ) / 1000) < uasA.warnVoltage ∧
          uasA.lowBattAlarm = false then 1 else 0) ∧
    decide (filterVoltage uasA.lpVoltage ((0 : ℚ) / 1000) < uasA.warnVoltage) = true := by
  have h := lowBattAlarm_latched envT uasA link0 1 0 100 0 128 0 (by decide) (by decide)
  refine ⟨h.1, h.2.1, ?_⟩
  norm_num [uasA, uasInit, setBatteryLipo, filterVoltage]

/-- C8: a message whose `sysid` differs from the vehicle's identity is
ignored: apart from adding the delivering link to the link set, the state
is unchanged and no notification of any kind is emitted. -/
theorem receiveMessage_wrong_sysid (env : Env) (s : UAS) (l : Link) (msg : MavMessage)
    (h : (msg.sysid : Int) ≠ s.uasId) :
    receiveMessage env s (some l) msg = (addLinkTo s l, []) := by
  have huas : (addLinkTo s l).uasId = s.uasId := by
    unfold addLinkTo
    split <;> rfl
  simp [receiveMessage, huas, h]

/-- C8 witness: a SYS_STATUS frame from system 2 delivered to the vehicle
with identity 1 only records the link and emits nothing. -/
theorem receiveMessage_wrong_sysid_witness :
    receiveMessage envT uasA (some link0) ⟨2, 0, .sysStatus 100 0 128 0⟩ =
      (addLinkTo uasA link0, []) :=
  receiveMessage_wrong_sysid envT uasA link0 ⟨2, 0, .sysStatus 100 0 128 0⟩ (by decide)

/-- C10: `setMode(m)` encodes and writes a SET_MODE frame to the
vehicle's (connected) links exactly when
`MAV_MODE_PREFLIGHT ≤ m < MAV_MODE_ENUM_END`, is a complete no-op
otherwise, and never modifies the stored `mode` field; across message
dispatch, the stored mode changes only when an inbound heartbeat reports
a `system_mode` different from the stored one. -/
theorem setMode_range_gate (g c : Nat) (s : UAS) (m : Int) :
    ((setMode g c s m).1 = s) ∧
    ((setMode g c s m).2 =
      if MAV_MODE_PREFLIGHT ≤ m ∧ m < MAV_MODE_ENUM_END then
        (s.links.filter (fun l => l.connected)).map
          (fun l => (l.id, WireMsg.setModeMsg g c (toU8 s.uasId) (toU8 m)))
      else []) ∧
    (∀ (env : Env) (s2 : UAS) (link : Option Link) (msg : MavMessage),
      ((receiveMessage env s2 link msg).1.mode = s2.mode) ∨
      ∃ t ap ss sm fm, msg.payload = .heartbeat t ap ss sm fm ∧ (sm : Int) ≠ s2.mode ∧
        (receiveMessage env s2 link msg).1.mode = (sm : Int)) := by
  refine ⟨?_, ?_, ?_⟩
  · unfold setMode
    split <;> rfl
  · by_cases hc : MAV_MODE_PREFLIGHT ≤ m ∧ m < MAV_MODE_ENUM_END <;>
      simp [setMode, sendToAllLinks, hc]
  · intro env s2 link msg
    rcases link with _ | l
    · exact Or.inl rfl
    rcases msg with ⟨sy, cp, pl⟩
    simp only [receiveMessage]
    split
    · rcases pl with ⟨t, ap, ss, sm, fm⟩ | ⟨ld, vb, bp, eu⟩ | ⟨la, lo, al, vx, vy, vz⟩ | _ | id
      · by_cases hm : (sm : Int) = s2.mode
        · left
          simp [dispatchMessage, handleHeartbeat_mode, hm]
        · right
          refine ⟨t, ap, ss, sm, fm, rfl, hm, ?_⟩
          simp [dispatchMessage, handleHeartbeat_mode, hm]
      · left
        have h := (handleSysStatus_alarm env (addLinkTo s2 l) sy ld vb bp eu).2.2
        simpa [dispatchMessage] using h
      · left
        simp [dispatchMessage]
      · left
        simp [dispatchMessage]
      · left
        simp [dispatchMessage]
    · left
      simp


/-- Inserting a key makes it present. -/
theorem jobjHasKey_insert_self (o : JObj) (k : String) (v : JVal) :
    jobjHasKey (jobjInsert o k v) k = true := by
  unfold jobjHasKey jobjInsert
  split
  · rename_i h
    rw [List.any_eq_true] at h ⊢
    obtain ⟨p, hp, hpk⟩ := h
    refine ⟨(k, v), List.mem_map.mpr ⟨p, hp, ?_⟩, by simp⟩
    simp only [decide_eq_true_eq] at hpk
    simp [hpk]
  · simp

/-- The bridge switch always produces a response object, except for the
`GET_CAMERA` null-camera dereference: the object is the request annotated
with the `status`/`error` markers exactly for unrecognized instruction
indices, and the request echoed unchanged for the recognized,
non-inserting cases. -/
theorem bridgeSwitch_spec (env : BridgeEnv) (idx : Int) (message : JObj)
    (h : ¬(idx = 7 ∧ env.activeCamera = none)) :
    ∃ mo : JObj × List BridgeEffect, bridgeSwitch env idx message = some mo ∧
      ((idx < 0 ∨ 12 < idx) →
        mo.1 = jobjInsert (jobjInsert message "status" (.jStr "KO")) "error" (.jStr "KO")) ∧
      ((0 ≤ idx ∧ idx ≤ 12 ∧ idx ≠ 4 ∧ idx ≠ 7) → mo.1 = message) := by
  by_cases h0 : idx = 0
  · exact ⟨(message, startStreamEffects env), by simp [bridgeSwitch, h0],
      fun hx => by omega, fun _ => rfl⟩
  by_cases h1 : idx = 1
  · exact ⟨(message, stopStreamEffects), by simp [bridgeSwitch, h0, h1],
      fun hx => by omega, fun _ => rfl⟩
  by_cases h2 : idx = 2
  · exact ⟨(message, resetGimbalEffects env), by simp [bridgeSwitch, h0, h1, h2],
      fun hx => by omega, fun _ => rfl⟩
  by_cases h3 : idx = 3
  · exact ⟨(message, moveGimbalEffects env (jobjGetString message "axis")
        (jobjGetString message "value")),
      by simp [bridgeSwitch, h0, h1, h2, h3], fun hx => by omega, fun _ => rfl⟩
  by_cases h4 : idx = 4
  · exact ⟨(jobjInsert message "availableCameraListData" (.jArr (getCamerasJson env)), []),
      by simp [bridgeSwitch, h0, h1, h2, h3, h4], fun hx => by omega, fun hx => by omega⟩
  by_cases h5 : idx = 5
  · exact ⟨(message, []), by simp [bridgeSwitch, h0, h1, h2, h3, h4, h5],
      fun hx => by omega, fun _ => rfl⟩
  by_cases h6 : idx = 6
  · exact ⟨(message, []), by simp [bridgeSwitch, h0, h1, h2, h3, h4, h5, h6],
      fun hx => by omega, fun _ => rfl⟩
  by_cases h7 : idx = 7
  · rcases hcam : env.activeCamera with _ | cam
    · exact absurd ⟨h7, hcam⟩ h
    · exact ⟨(jobjInsert message "gimbalRange" (.jObj (getGimbalCapabilities env)), []),
        by simp [bridgeSwitch, h0, h1, h2, h3, h4, h5, h6, h7, hcam],
        fun hx => by omega, fun hx => by omega⟩
  by_cases h8 : idx = 8
  · exact ⟨(message, setZoomEffects env (jobjGetNum message "zoomValue")),
      by simp [bridgeSwitch, h0, h1, h2, h3, h4, h5, h6, h7, h8],
      fun hx => by omega, fun _ => rfl⟩
  by_cases h9 : idx = 9
  · exact ⟨(message, takePhotoEffects env),
      by simp [bridgeSwitch, h0, h1, h2, h3, h4, h5, h6, h7, h8, h9],
      fun hx => by omega, fun _ => rfl⟩
  by_cases h10 : idx = 10
  · exact ⟨(message, startRecordingEffects env),
      by simp [bridgeSwitch, h0, h1, h2, h3, h4, h5, h6, h7, h8, h9, h10],
      fun hx => by omega, fun _ => rfl⟩
  by_cases h11 : idx = 11
  · exact ⟨(message, stopRecordingEffects env),
      by simp [bridgeSwitch, h0, h1, h2, h3, h4, h5, h6, h7, h8, h9, h10, h11],
      fun hx => by omega, fun _ => rfl⟩
  by_cases h12 : idx = 12
  · exact ⟨(message, servoCmdEffects env (jobjGetNum message "param1")
        (jobjGetNum message "param2")),
      by simp [bridgeSwitch, h0, h1, h2, h3, h4, h5, h6, h7, h8, h9, h10, h11, h12],
      fun hx => by omega, fun _ => rfl⟩
  · exact ⟨(jobjInsert (jobjInsert message "status" (.jStr "KO")) "error" (.jStr "KO"), []),
      by simp [bridgeSwitch, h0, h1, h2, h3, h4, h5, h6, h7, h8, h9, h10, h11, h12],
      fun _ => rfl, fun hx => by omega⟩

/-- C1 (amended): every inbound bridge request — except a `GET_CAMERA`
request with no active camera, whose handler dereferences a null pointer —
produces exactly one response, published to the request's declared
response topic with the request's correlation data echoed unchanged at
QoS 1; the payload carries the `status = KO` / `error = KO` markers
exactly for unrecognized instructions, while a recognized instruction
whose operation cannot be performed (such as `MOVE_GIMBAL` with no active
gimbal) still gets its response, with the request payload echoed
unchanged and no error marker added by the bridge. -/
theorem updateMessage_always_responds (env : BridgeEnv) (req : BridgeRequest)
    (h : ¬(qlistIndexOf commandsList (jobjGetString req.payload "instruction") = 7 ∧
        env.activeCamera = none)) :
    ∃ r : List BridgeEffect × BridgePublish,
      updateMessage env req = some r ∧
      r.2.topic = req.responseTopic ∧
      r.2.correlationData = req.correlationData ∧
      r.2.qos = 1 ∧
      ((qlistIndexOf commandsList (jobjGetString req.payload "instruction") < 0 ∨
          12 < qlistIndexOf commandsList (jobjGetString req.payload "instruction")) →
        r.2.payload =
          jobjInsert (jobjInsert req.payload "status" (.jStr "KO")) "error" (.jStr "KO") ∧
        jobjHasKey r.2.payload "error" = true) ∧
      ((0 ≤ qlistIndexOf commandsList (jobjGetString req.payload "instruction") ∧
          qlistIndexOf commandsList (jobjGetString req.payload "instruction") ≤ 12 ∧
          qlistIndexOf commandsList (jobjGetString req.payload "instruction") ≠ 4 ∧
          qlistIndexOf commandsList (jobjGetString req.payload "instruction") ≠ 7) →
        r.2.payload = req.payload) := by
  obtain ⟨mo, hmo, hA, hB⟩ :=
    bridgeSwitch_spec env (qlistIndexOf commandsList (jobjGetString req.payload "instruction"))
      req.payload h
  refine ⟨(mo.2, ⟨req.responseTopic, mo.1, req.correlationData, 1, false⟩),
      ?_, rfl, rfl, rfl, ?_, ?_⟩
  · unfold updateMessage
    dsimp only
    rw [hmo]
    rfl
  · intro hx
    refine ⟨hA hx, ?_⟩
    rw [hA hx]
    exact jobjHasKey_insert_self _ _ _
  · intro hx
    exact hB hx

/-- C1 counterexample: the `MOVE_GIMBAL` request of the end-to-end
scenario, with no active gimbal, gets its one response on the declared
response topic with the correlation token echoed — but the published
payload carries no error annotation at all (neither an `error` nor a
`status` key) and no gimbal operation runs, contradicting the claim that
a failed operation's response payload contains an error marker. -/
theorem updateMessage_no_error_marker_counterexample :
    (updateMessage cexEnv cexReq).map
        (fun r => (r.2.topic, r.2.correlationData, jobjHasKey r.2.payload "error",
          jobjHasKey r.2.payload "status", r.1)) =
      some ("DRONE/RESPONSE/1", "corr-42", false, false, []) := by
  decide

/-- C1 witness: the amended theorem applied to that same `MOVE_GIMBAL`
request with no active devices. -/
theorem updateMessage_always_responds_witness :
    ∃ r : List BridgeEffect × BridgePublish,
      updateMessage cexEnv cexReq = some r ∧
      r.2.topic = cexReq.responseTopic ∧
      r.2.correlationData = cexReq.correlationData ∧
      r.2.qos = 1 ∧
      ((qlistIndexOf commandsList (jobjGetString cexReq.payload "instruction") < 0 ∨
          12 < qlistIndexOf commandsList (jobjGetString cexReq.payload "instruction")) →
        r.2.payload =
          jobjInsert (jobjInsert cexReq.payload "status" (.jStr "KO")) "error" (.jStr "KO") ∧
        jobjHasKey r.2.payload "error" = true) ∧
      ((0 ≤ qlistIndexOf commandsList (jobjGetString cexReq.payload "instruction") ∧
          qlistIndexOf commandsList (jobjGetString cexReq.payload "instruction") ≤ 12 ∧
          qlistIndexOf commandsList (jobjGetString cexReq.payload "instruction") ≠ 4 ∧
          qlistIndexOf commandsList (jobjGetString cexReq.payload "instruction") ≠ 7) →
        r.2.payload = cexReq.payload) :=
  updateMessage_always_responds cexEnv cexReq (by decide)

end QGC
